import Mathlib

/-!
The demo program `main.go` of otlp-uptrace-example.

A shallow embedding of `src/main.go`.  The program is straight-line Go code that
drives three external collaborators (the zap/otelzap logger, the OpenTelemetry
tracer, the uptrace backend).  Every call the program makes on a collaborator is
recorded, in program order, in an event trace carried by the `World`; Go control
flow (`panic`, `os.Exit`, `defer`) is modelled by the `Outcome` of a `Prog`.
-/

namespace OtlpExample

/-! ## Go integers -/

/-- Conversion of an integer to a signed Go integer of `bits` bits (wrap-around). -/
def wrapInt (bits : Nat) (z : Int) : Int :=
  (z + 2 ^ (bits - 1)) % 2 ^ bits - 2 ^ (bits - 1)

/-- Result of an `int64` operation. -/
def wrapInt64 (z : Int) : Int := wrapInt 64 z

/-! ## Severities (`zapcore.Level`) -/

/-- Severities of the spec data model, `Debug < Info < Warn < Error`. -/
inductive Level
  | debug
  | info
  | warn
  | error
  deriving DecidableEq, Repr

/-- Ordinal of a severity: `zapcore.DebugLevel = -1`, `InfoLevel = 0`,
`WarnLevel = 1`, `ErrorLevel = 2`. -/
def Level.ord : Level → Int
  | .debug => -1
  | .info => 0
  | .warn => 1
  | .error => 2

/-! ## The fragment of package `reflect` used by `initLogger` -/

/-- The `reflect.Kind` of a struct field (`invalid` is the kind of the zero `Value`). -/
inductive Kind
  | invalid
  | bool
  | int
  | int8
  | int16
  | int32
  | int64
  | uint
  | uint8
  | uint16
  | uint32
  | uint64
  | float64
  | string
  | pointer
  | slice
  | struct
  deriving DecidableEq, Repr

/-- Width of the signed integer kinds; `none` for every other kind. -/
def Kind.intBits : Kind → Option Nat
  | .int => some 64
  | .int8 => some 8
  | .int16 => some 16
  | .int32 => some 32
  | .int64 => some 64
  | _ => none

/-- One field of the struct behind `*otelzap.Logger`: its name, kind, whether it is
exported, and the integer it stores (read for the integer kinds only). -/
structure FieldDecl where
  name : String
  kind : Kind
  exported : Bool
  value : Int
  deriving DecidableEq, Repr

/-- The struct value a `*otelzap.Logger` points to, as a list of fields. -/
abbrev Struct := List FieldDecl

/-- Field lookup by name. -/
def Struct.find (name : String) : Struct → Option FieldDecl
  | [] => none
  | f :: fs => if f.name = name then some f else Struct.find name fs

/-- Write of an integer into the storage of the field called `name`. -/
def Struct.store (name : String) (x : Int) : Struct → Struct
  | [] => []
  | f :: fs =>
    if f.name = name then { f with value := x } :: fs else f :: Struct.store name x fs

/-- A `reflect.Value` for a field of the logger struct: kind, the read-only flag
(set for fields reached through an unexported name), the addressable flag, and the
name of the field whose storage it designates. -/
structure Value where
  kind : Kind
  flagRO : Bool
  flagAddr : Bool
  field : String
  deriving DecidableEq, Repr

/-- Result of a Go computation: a normal return, a panic that is unwinding the
stack, or a process exit requested through `os.Exit`. -/
inductive Outcome (α : Type)
  | ok (a : α)
  | panic (msg : String)
  | exit (code : Nat)
  deriving DecidableEq, Repr

/-- `reflect.ValueOf(l).Elem().FieldByName(name)`: the zero `Value` when the struct
has no such field; the struct is reached through a pointer, so its fields are
addressable. -/
def FieldByName (v : Struct) (name : String) : Value :=
  match v.find name with
  | none => ⟨.invalid, false, false, name⟩
  | some f => ⟨f.kind, !f.exported, true, name⟩

/-- `Value.CanInt`: true exactly for the signed integer kinds. -/
def Value.CanInt (f : Value) : Bool := f.kind.intBits.isSome

/-- `Value.CanSet`: addressable and not obtained through an unexported field. -/
def Value.CanSet (f : Value) : Bool := f.flagAddr && !f.flagRO

/-- `Value.UnsafeAddr`: the address of the storage; panics when not addressable. -/
def Value.addrOf (f : Value) : Outcome String :=
  if f.flagAddr then .ok f.field
  else .panic "reflect.Value.UnsafeAddr of unaddressable value"

/-- `reflect.NewAt(typ, ptr).Elem()`: a settable value over the storage at `ptr`. -/
def NewAtElem (kind : Kind) (ptr : String) : Value := ⟨kind, false, true, ptr⟩

/-- `Value.SetInt`: panics unless the value is settable and of a signed integer
kind; otherwise stores `x` converted to the width of the kind. -/
def Value.SetInt (f : Value) (x : Int) (mem : Struct) : Outcome Struct :=
  if !f.CanSet then .panic "reflect: reflect.Value.SetInt using unaddressable or unexported value"
  else
    match f.kind.intBits with
    | none => .panic "reflect: call of reflect.Value.SetInt on non-integer Value"
    | some bits => .ok (mem.store f.field (wrapInt bits x))

/-! ## Tracing and logging data -/

/-- Identity of a span: its own identifier and the identifier of its trace. -/
structure SpanRef where
  id : Nat
  traceId : Nat
  deriving DecidableEq, Repr

/-- A `context.Context`, reduced to the one ambient value the program uses: the
active span.  `context.Background()` carries none. -/
structure Context where
  span : Option SpanRef
  deriving DecidableEq, Repr

/-- `context.Background()`. -/
def Context.background : Context := ⟨none⟩

/-- `trace.SpanKind` values used by the program. -/
inductive SpanKind
  | internal
  | server
  deriving DecidableEq, Repr

/-- `codes.Code`. -/
inductive Code
  | unset
  | error
  | ok
  deriving DecidableEq, Repr

/-- A structured logging field (`zap.Int64`, `zap.String`, `zap.Error`). -/
inductive LogField
  | int64 (key : String) (v : Int)
  | string (key : String) (v : String)
  | error (err : String)
  deriving DecidableEq, Repr

/-- A log record as forwarded to the sink: severity, message, fields and the span
found in the context of the call. -/
structure LogRecord where
  severity : Level
  message : String
  fields : List LogField
  span : Option SpanRef
  deriving DecidableEq, Repr

/-- What a `fmt.Println` / `fmt.Printf` of the program writes. -/
inductive Printed
  | text (s : String)
  | level (l : Level)
  | logger (l : Struct)
  | traceURL (span : SpanRef)
  deriving DecidableEq, Repr

/-- One observable call of the program on a collaborator. -/
inductive Event
  | replaceGlobals
  | setErrorHandler
  | configure (service version environment : String)
  | start (span : SpanRef) (name : String) (kind : SpanKind) (parent : Option SpanRef)
  | finish (span : SpanRef)
  | recordError (span : SpanRef) (msg : String) (stack : Bool)
  | setStatus (span : SpanRef) (code : Code) (msg : String)
  | record (r : LogRecord)
  | sync
  | shutdown (ctx : Context)
  | println (p : Printed)
  deriving DecidableEq, Repr

/-- The zap logger built by `config.Build()`: only its level is observed. -/
structure ZapLogger where
  level : Level
  deriving DecidableEq, Repr

/-- The fragment of `zap.Config` the program touches; `sampling` is `false` for nil. -/
structure ZapConfig where
  level : Level
  sampling : Bool
  deriving DecidableEq, Repr

/-- An `otelzap.Logger`: the embedded zap logger and the struct itself. -/
structure Logger where
  zap : ZapLogger
  self : Struct
  deriving DecidableEq, Repr

/-- State of the process and of its collaborators.
* `env`: the process environment;
* `loggerDecl`: the `otelzap.Logger` struct as `otelzap.New` fills it before it
  applies the options;
* `log`: the package variable `log` (`none` is the nil pointer);
* `nextSpan`: number of spans started so far, the identifier of the next one;
* `events`: every call made on a collaborator so far, oldest first;
* `inject`: fault injection of the spec test harness: `some k` makes the
  instrumentation call number `k` (from 0) issued inside a span body panic. -/
structure World where
  env : List (String × String)
  loggerDecl : Struct
  log : Option Logger
  nextSpan : Nat
  events : List Event
  inject : Option Nat
  deriving DecidableEq, Repr

/-- A Go procedure: a state transformer with an outcome. -/
def Prog (α : Type) : Type := World → Outcome α × World

/-- Normal return of `a`. -/
def Prog.ret {α : Type} (a : α) : Prog α := fun w => (.ok a, w)

/-- Sequencing: a panic or an exit of the first part skips the second. -/
def Prog.seq {α β : Type} (p : Prog α) (k : α → Prog β) : Prog β := fun w =>
  match p w with
  | (.ok a, w1) => k a w1
  | (.panic m, w1) => (.panic m, w1)
  | (.exit c, w1) => (.exit c, w1)

instance : Monad Prog where
  pure := Prog.ret
  bind := Prog.seq

/-- The Go statement `defer d` followed by the rest `body` of the function: `d` runs
when `body` returns and when a panic unwinds through it (a panic of `d` replaces the
current one); `os.Exit` ends the process without running deferred calls. -/
def deferCall {α : Type} (d : Prog Unit) (body : Prog α) : Prog α := fun w =>
  match body w with
  | (.ok a, w1) =>
    match d w1 with
    | (.ok _, w2) => (.ok a, w2)
    | (.panic m, w2) => (.panic m, w2)
    | (.exit c, w2) => (.exit c, w2)
  | (.panic m, w1) =>
    match d w1 with
    | (.ok _, w2) => (.panic m, w2)
    | (.panic m2, w2) => (.panic m2, w2)
    | (.exit c, w2) => (.exit c, w2)
  | (.exit c, w1) => (.exit c, w1)

/-- The Go statement `panic(msg)`. -/
def goPanic {α : Type} (msg : String) : Prog α := fun w => (.panic msg, w)

/-- The call `os.Exit(code)`. -/
def osExit {α : Type} (code : Nat) : Prog α := fun w => (.exit code, w)

/-- Appends one event to the trace. -/
def emit (e : Event) : Prog Unit := fun w => (.ok (), { w with events := w.events ++ [e] })

/-- Runs a `reflect` operation inside a procedure. -/
def liftOutcome {α : Type} (o : Outcome α) : Prog α := fun w => (o, w)

/-- The calls `fmt.Println` and `fmt.Printf`. -/
def println (p : Printed) : Prog Unit := emit (.println p)

/-- Message of the Go runtime for a nil pointer dereference. -/
def nilDeref : String := "runtime error: invalid memory address or nil pointer dereference"

/-- Reads the package variable `log` for a method call that dereferences it. -/
def derefLog : Prog Logger := fun w =>
  match w.log with
  | none => (.panic nilDeref, w)
  | some lg => (.ok lg, w)

/-- Modelled from the spec: testable property 3 ("injecting a panic inside the
scoped body"); the concrete harness is missing from the sources.  Every
instrumentation call issued inside a span body passes through this point. -/
def injectionPoint : Prog Unit := fun w =>
  match w.inject with
  | none => (.ok (), w)
  | some 0 => (.panic "injected panic", { w with inject := none })
  | some (k + 1) => (.ok (), { w with inject := some k })

/-! ## The collaborators -/

/-- Modelled from the spec: the identity `startSpan` gives to the span number `n`
started under `ctx` (the tracing SDK is not part of the sources): a span started
under a parent joins the trace of the parent, a span without parent roots a new
trace. -/
def newSpanRef (ctx : Context) (n : Nat) : SpanRef :=
  match ctx.span with
  | some p => ⟨n, p.traceId⟩
  | none => ⟨n, n⟩

/-- Modelled from the spec: `startSpan` of the TraceEmitter (the tracing SDK is not
part of the sources).  Creates a new span; if `ctx` carries a span, that span is the
parent of the new one; returns the context carrying the new span as active, and the
span handle. -/
def tracerStart (ctx : Context) (name : String) (kind : SpanKind) : Prog (Context × SpanRef) :=
  fun w =>
    let span := newSpanRef ctx w.nextSpan
    (.ok (⟨some span⟩, span),
      { w with nextSpan := w.nextSpan + 1,
               events := w.events ++ [.start span name kind ctx.span] })

/-- The call `span.End()`. -/
def spanEnd (span : SpanRef) : Prog Unit := emit (.finish span)

/-- The call `span.RecordError(err, trace.WithStackTrace(stack))`. -/
def spanRecordError (span : SpanRef) (err : String) (stack : Bool) : Prog Unit := do
  injectionPoint
  emit (.recordError span err stack)

/-- The call `span.SetStatus(code, msg)`. -/
def spanSetStatus (span : SpanRef) (code : Code) (msg : String) : Prog Unit := do
  injectionPoint
  emit (.setStatus span code msg)

/-- Modelled from the spec: the filter of `log` of the LogFacade (the logging
library is not part of the sources): a call is emitted only if its severity is at
least the current minimum, which is what the struct field `minLevel` stores. -/
def Logger.enabled (lg : Logger) (sev : Level) : Bool :=
  match lg.self.find "minLevel" with
  | some f => decide (f.value ≤ sev.ord)
  | none => true

/-- Modelled from the spec: `log` of the LogFacade: filters by the current minimum;
if passed, forwards the message, the fields and the active span of the context. -/
def Logger.write (lg : Logger) (ctx : Context) (sev : Level) (msg : String)
    (fields : List LogField) : Prog Unit :=
  if lg.enabled sev then emit (.record ⟨sev, msg, fields, ctx.span⟩) else pure ()

/-- The calls `log.Ctx(ctx).Info/Warn/Error(msg, fields...)`. -/
def logCtx (ctx : Context) (sev : Level) (msg : String) (fields : List LogField) : Prog Unit := do
  injectionPoint
  let lg ← derefLog
  lg.write ctx sev msg fields

/-- The call `log.InfoContext(ctx, msg, fields...)`. -/
def logInfoContext (ctx : Context) (msg : String) (fields : List LogField) : Prog Unit := do
  injectionPoint
  let lg ← derefLog
  lg.write ctx .info msg fields

/-- The call `log.Sugar()`. -/
def logSugar : Prog Logger := derefLog

/-- The call `sugar.Ctx(ctx).Infow(msg, fields...)`. -/
def sugarCtxInfow (sugar : Logger) (ctx : Context) (msg : String) (fields : List LogField) :
    Prog Unit := do
  injectionPoint
  sugar.write ctx .info msg fields

/-- The call `log.Level()`: the level of the embedded zap logger. -/
def logLevel : Prog Level := do
  let lg ← derefLog
  pure lg.zap.level

/-- The call `log.Sync()`. -/
def logSync : Prog Unit := do
  let _ ← derefLog
  emit .sync

/-- The call `os.LookupEnv(key)`. -/
def osLookupEnv (key : String) : Prog (String × Bool) := fun w =>
  match w.env.lookup key with
  | some v => (.ok (v, true), w)
  | none => (.ok ("", false), w)

/-- The call `uptrace.ConfigureOpentelemetry(...)` with the three options used. -/
def uptraceConfigureOpentelemetry (service version environment : String) : Prog Unit :=
  emit (.configure service version environment)

/-- The call `uptrace.Shutdown(ctx)`. -/
def uptraceShutdown (ctx : Context) : Prog Unit := emit (.shutdown ctx)

/-- The call `otel.SetErrorHandler(...)`. -/
def otelSetErrorHandler : Prog Unit := emit .setErrorHandler

/-- The call `zap.NewDevelopmentConfig()`; both fields are overwritten by `initLogger`. -/
def zapNewDevelopmentConfig : ZapConfig := ⟨.debug, false⟩

/-- The call `zap.Must(config.Build())`. -/
def zapBuild (config : ZapConfig) : ZapLogger := ⟨config.level⟩

/-- The call `otelzap.New(logger, opt)`: fills the struct, then applies the option to it. -/
def otelzapNew (logger : ZapLogger) (opt : Struct → Prog Struct) : Prog Logger := fun w =>
  match opt w.loggerDecl w with
  | (.ok l, w1) => (.ok ⟨logger, l⟩, w1)
  | (.panic m, w1) => (.panic m, w1)
  | (.exit c, w1) => (.exit c, w1)

/-- The state in which the package variable `log` holds `l`. -/
def World.withLog (w : World) (l : Logger) : World := { w with log := some l }

/-- The assignment `log = l` to the package variable. -/
def setLog (l : Logger) : Prog Unit := fun w => (.ok (), w.withLog l)

/-! ## `main.go` -/

/-- The option closure of `initLogger` (lines 30-51); `level` stands for the written
constant, which the source fixes to `int64(zapcore.InfoLevel)`. -/
def overrideMinimumSeverity (level : Int) (l : Struct) : Prog Struct := do
  let f := FieldByName l "minLevel"
  if !f.CanInt then
    goPanic "Cannot set unexported field minLevel on logger"
  else
    let f ←
      if !f.CanSet then do
        let ptr ← liftOutcome f.addrOf
        pure (NewAtElem f.kind ptr)
      else pure f
    let l ← liftOutcome (f.SetInt level l)
    println (.logger l)
    pure l

/-- The function `initLogger`. -/
def initLogger : Prog Unit := do
  let config := zapNewDevelopmentConfig
  let config := { config with level := Level.debug }
  let config := { config with sampling := false }
  let l ← otelzapNew (zapBuild config) (overrideMinimumSeverity (wrapInt64 Level.info.ord))
  setLog l
  emit .replaceGlobals

/-- The function `initUptrace`. -/
def initUptrace : Prog Unit := do
  let lvl ← logLevel
  println (.level lvl)
  let (_, exits) ← osLookupEnv "UPTRACE_DSN"
  if !exits then
    println (.text "warn: UPTRACE_DSN not set")
    osExit 1
  uptraceConfigureOpentelemetry "otlp-example-uptrace" "v1.0.0" "production"

/-- The function `add`. -/
def add (ctx : Context) (x y : Int) : Prog Int := do
  let (_, span) ← tracerStart ctx "Addition" .internal
  deferCall (spanEnd span) do
    pure (wrapInt64 (x + y))

/-- The function `multiply`. -/
def multiply (ctx : Context) (x y : Int) : Prog Int := do
  let (ctx, span) ← tracerStart ctx "Multiplication" .server
  deferCall (spanEnd span) do
    logCtx ctx .info "multiply " [.int64 "x" x, .int64 "y" y]
    pure (wrapInt64 (x * y))

/-- The function `getDatabaseUser`. -/
def getDatabaseUser (ctx : Context) (email : String) : Prog Int := do
  let (ctx, span) ← tracerStart ctx "getDatabaseUser" .server
  deferCall (spanEnd span) do
    let sugar ← logSugar
    sugarCtxInfow sugar ctx "getDatabaseUser INFO " [.string "email" email]
    logInfoContext ctx "getDatabaseUser INFO2 " [.string "email" email]
    logCtx ctx .error "getDatabaseUser ERR " [.string "email" email]
    pure 42

/-- The function `getUser`. -/
def getUser (ctx : Context) (email : String) : Prog Int := do
  let (ctx, span) ← tracerStart ctx "getUser" .server
  deferCall (spanEnd span) do
    getDatabaseUser ctx email

/-- The function `someFuncWithError`. -/
def someFuncWithError (ctx : Context) : Prog Unit := do
  let (_, span) ← tracerStart ctx "someFuncWithError" .internal
  deferCall (spanEnd span) do
    let err := "dummy error"
    spanRecordError span err true
    spanSetStatus span .error err

/-- The function `main`. -/
def main : Prog Unit := do
  initLogger
  otelSetErrorHandler
  let ctx := Context.background
  initUptrace
  deferCall (uptraceShutdown ctx) do
    let (ctx, span) ← tracerStart ctx "main" .internal
    deferCall (spanEnd span) do
      deferCall logSync do
        logCtx ctx .error "hello from zap" [.error "hello world", .string "foo" "bar"]
        logCtx ctx .info "This is an INFO" []
        logCtx ctx .warn "This is a WARN" []
        logCtx ctx .error "This is an ERROR" []
        logCtx ctx .info "starting the application" []
        let user ← getUser ctx "haha@bla.com"
        logCtx ctx .info "getting the user " [.int64 "getUser" user]
        let m1 ← multiply ctx 2 2
        let m2 ← multiply ctx m1 10
        let sum ← add ctx m2 2
        logCtx ctx .info "the answer is " [.int64 "multi result" sum]
        someFuncWithError ctx
        println (.traceURL span)

/-- Exit status of the process for an outcome of `main` (2 is the status of a Go
program that dies of a panic). -/
def exitCode : Outcome Unit → Nat
  | .ok _ => 0
  | .panic _ => 2
  | .exit c => c

/-- The process at start-up: nothing has run yet. -/
def World.boot (env : List (String × String)) (decl : Struct) (inject : Option Nat) : World :=
  { env := env, loggerDecl := decl, log := none, nextSpan := 0, events := [], inject := inject }

/-- A field layout with the shape of the `otelzap.Logger` struct. -/
def sampleLogger : Struct :=
  [ ⟨"Logger", .pointer, true, 0⟩, ⟨"skipCaller", .pointer, false, 0⟩,
    ⟨"withTraceID", .bool, false, 0⟩, ⟨"minLevel", .int8, false, 1⟩,
    ⟨"errorStatusLevel", .int8, false, 2⟩, ⟨"caller", .bool, false, 0⟩,
    ⟨"stackTrace", .bool, false, 0⟩, ⟨"extraFields", .slice, false, 0⟩,
    ⟨"callerDepth", .int, false, 0⟩ ]

/-! ## Observations on event traces -/

/-- The events produced between the state `w` and the later state `w2`. -/
def World.since (w w2 : World) : List Event := w2.events.drop w.events.length

/-- Recognises the start of the span with identifier `i`. -/
def Event.startsId (i : Nat) : Event → Bool
  | .start s _ _ _ => s.id == i
  | _ => false

/-- Recognises the start of the span `s`. -/
def Event.startsSpan (s : SpanRef) : Event → Bool
  | .start s2 _ _ _ => s2 == s
  | _ => false

/-- Number of `span.End()` calls made on `s` in a trace. -/
def finishes (s : SpanRef) (evs : List Event) : Nat := evs.count (.finish s)

/-- The spans started in a trace are those numbered `n` to `m - 1`, each started
once, and every span is ended as many times as it is started. -/
structure Balanced (n m : Nat) (evs : List Event) : Prop where
  le : n ≤ m
  ids : ∀ i, evs.countP (Event.startsId i) = if n ≤ i ∧ i < m then 1 else 0
  ends : ∀ s, finishes s evs = evs.countP (Event.startsSpan s)

/-- Every run of `p` appends a balanced trace. -/
def Tidy {α : Type} (p : Prog α) : Prop :=
  ∀ w, ∃ evs, (p w).2.events = w.events ++ evs ∧ Balanced w.nextSpan (p w).2.nextSpan evs

/-- A run of `p` never exits the process, and a value it returns satisfies `P`. -/
def Yields {α : Type} (P : α → Prop) (p : Prog α) : Prop :=
  ∀ w, match (p w).1 with
    | .ok a => P a
    | .panic _ => True
    | .exit _ => False

/-- Recognises the two span life-cycle events. -/
def Event.isSpanEdge : Event → Bool
  | .start _ _ _ _ => true
  | .finish _ => true
  | _ => false

/-- The state after `k` more spans were started and the events `evs` appended. -/
def World.extend (w : World) (k : Nat) (evs : List Event) : World :=
  { w with nextSpan := w.nextSpan + k, events := w.events ++ evs }

/-- What a log call of severity `sev` on the logger `lg` appends to the trace. -/
def Logger.output (lg : Logger) (ctx : Context) (sev : Level) (msg : String)
    (fields : List LogField) : List Event :=
  if lg.enabled sev then [.record ⟨sev, msg, fields, ctx.span⟩] else []

/-- The statements of `main` that run inside the root span (lines 134-147). -/
def mainBody (ctx : Context) (span : SpanRef) : Prog Unit := do
  logCtx ctx .error "hello from zap" [.error "hello world", .string "foo" "bar"]
  logCtx ctx .info "This is an INFO" []
  logCtx ctx .warn "This is a WARN" []
  logCtx ctx .error "This is an ERROR" []
  logCtx ctx .info "starting the application" []
  let user ← getUser ctx "haha@bla.com"
  logCtx ctx .info "getting the user " [.int64 "getUser" user]
  let m1 ← multiply ctx 2 2
  let m2 ← multiply ctx m1 10
  let sum ← add ctx m2 2
  logCtx ctx .info "the answer is " [.int64 "multi result" sum]
  someFuncWithError ctx
  println (.traceURL span)

/-- The trace `mainBody` appends when the logger is `lg`, no fault is injected and
`n` spans were started before: used to state the run of `mainBody` in closed form. -/
def mainBodyTrace (lg : Logger) (ctx : Context) (span : SpanRef) (n : Nat) : List Event :=
  lg.output ctx .error "hello from zap" [.error "hello world", .string "foo" "bar"]
  ++ lg.output ctx .info "This is an INFO" []
  ++ lg.output ctx .warn "This is a WARN" []
  ++ lg.output ctx .error "This is an ERROR" []
  ++ lg.output ctx .info "starting the application" []
  ++ [.start (newSpanRef ctx n) "getUser" .server ctx.span,
      .start (newSpanRef ⟨some (newSpanRef ctx n)⟩ (n + 1)) "getDatabaseUser" .server
        (some (newSpanRef ctx n))]
  ++ lg.output ⟨some (newSpanRef ⟨some (newSpanRef ctx n)⟩ (n + 1))⟩ .info
      "getDatabaseUser INFO " [.string "email" "haha@bla.com"]
  ++ lg.output ⟨some (newSpanRef ⟨some (newSpanRef ctx n)⟩ (n + 1))⟩ .info
      "getDatabaseUser INFO2 " [.string "email" "haha@bla.com"]
  ++ lg.output ⟨some (newSpanRef ⟨some (newSpanRef ctx n)⟩ (n + 1))⟩ .error
      "getDatabaseUser ERR " [.string "email" "haha@bla.com"]
  ++ [.finish (newSpanRef ⟨some (newSpanRef ctx n)⟩ (n + 1)), .finish (newSpanRef ctx n)]
  ++ lg.output ctx .info "getting the user " [.int64 "getUser" 42]
  ++ [.start (newSpanRef ctx (n + 2)) "Multiplication" .server ctx.span]
  ++ lg.output ⟨some (newSpanRef ctx (n + 2))⟩ .info "multiply " [.int64 "x" 2, .int64 "y" 2]
  ++ [.finish (newSpanRef ctx (n + 2)),
      .start (newSpanRef ctx (n + 3)) "Multiplication" .server ctx.span]
  ++ lg.output ⟨some (newSpanRef ctx (n + 3))⟩ .info "multiply " [.int64 "x" 4, .int64 "y" 10]
  ++ [.finish (newSpanRef ctx (n + 3)),
      .start (newSpanRef ctx (n + 4)) "Addition" .internal ctx.span,
      .finish (newSpanRef ctx (n + 4))]
  ++ lg.output ctx .info "the answer is " [.int64 "multi result" 42]
  ++ [.start (newSpanRef ctx (n + 5)) "someFuncWithError" .internal ctx.span,
      .recordError (newSpanRef ctx (n + 5)) "dummy error" true,
      .setStatus (newSpanRef ctx (n + 5)) .error "dummy error",
      .finish (newSpanRef ctx (n + 5)),
      .println (.traceURL span)]

/-- The integers logged under the key `key` in a trace, oldest first. -/
def loggedAs (key : String) (evs : List Event) : List Int :=
  evs.flatMap fun e =>
    match e with
    | .record r => r.fields.filterMap fun fld =>
        match fld with
        | .int64 k v => if k = key then some v else none
        | _ => none
    | _ => []

/-- A process about to run `main` with the DSN set and the sample logger layout. -/
def demoWorld : World := World.boot [("UPTRACE_DSN", "dsn")] sampleLogger none

/-- The logger `initLogger` builds from the sample layout. -/
def demoLogger : Logger := ⟨⟨.debug⟩, sampleLogger.store "minLevel" Level.info.ord⟩

/-- A logger layout without any `minLevel` field. -/
def bareLogger : Struct := [⟨"Logger", .pointer, true, 0⟩, ⟨"caller", .bool, false, 0⟩]

/-- A logger layout whose `minLevel` field is a string. -/
def textLogger : Struct := [⟨"Logger", .pointer, true, 0⟩, ⟨"minLevel", .string, false, 0⟩]

/-- A logger layout whose `minLevel` field is exported-like settable storage. -/
def openLogger : Struct := [⟨"minLevel", .int32, true, 7⟩]

/-- Every span started in the trace is ended exactly once in it, and no other span
is ended in it. -/
def EndedOnce (evs : List Event) : Prop :=
  (∀ s name kind parent, Event.start s name kind parent ∈ evs → finishes s evs = 1) ∧
  (∀ s, Event.finish s ∈ evs → ∃ name kind parent, Event.start s name kind parent ∈ evs)

/-- The run from `w` to `w2` of a function that opens the span `name` under `ctx`:
the first event is the start of a new span, the last event is its end, and every span
started in between is ended exactly once. -/
def SpanScoped (name : String) (kind : SpanKind) (ctx : Context) (w w2 : World) : Prop :=
  (∃ e, w.since w2 = .start (newSpanRef ctx w.nextSpan) name kind ctx.span
      :: (e ++ [.finish (newSpanRef ctx w.nextSpan)])) ∧
  EndedOnce (w.since w2)

/-- A process about to run `main` without the DSN in its environment. -/
def noDsnWorld : World := World.boot [("HOME", "/root")] sampleLogger none

/-- A state with the logger set in which the next instrumentation call panics. -/
def faultyWorld : World := { demoWorld.withLog demoLogger with inject := some 0 }

/-- The spans started under the name `name` in a trace, each with its parent. -/
def spansNamed (name : String) (evs : List Event) : List (SpanRef × Option SpanRef) :=
  evs.filterMap fun e =>
    match e with
    | .start s n _ parent => if n = name then some (s, parent) else none
    | _ => none

/-- The trace identifiers of the spans started in a trace. -/
def traceIds (evs : List Event) : List Nat :=
  evs.filterMap fun e =>
    match e with
    | .start s _ _ _ => some s.traceId
    | _ => none

/-- The messages of the records that carry the span `s`, oldest first. -/
def messagesOn (s : SpanRef) (evs : List Event) : List String :=
  evs.filterMap fun e =>
    match e with
    | .record r => if r.span = some s then some r.message else none
    | _ => none

/-! # Proofs -/

variable {α β : Type}

/-! ## Balanced traces -/

theorem Prog.bind_apply (p : Prog α) (k : α → Prog β) (w : World) :
    (p >>= k) w = Prog.seq p k w := rfl

theorem Prog.pure_apply (a : α) (w : World) : (pure a : Prog α) w = (.ok a, w) := rfl

theorem balanced_nil (n : Nat) : Balanced n n [] := by
  refine ⟨le_refl n, fun i => ?_, fun s => by simp [finishes]⟩
  rw [if_neg (by omega)]; rfl

theorem balanced_append {n m k : Nat} {e1 e2 : List Event}
    (h1 : Balanced n m e1) (h2 : Balanced m k e2) : Balanced n k (e1 ++ e2) := by
  refine ⟨le_trans h1.le h2.le, fun i => ?_, fun s => ?_⟩
  · have a := h1.ids i
    have b := h2.ids i
    have := h1.le
    have := h2.le
    rw [List.countP_append, a, b]
    split_ifs <;> omega
  · have a := h1.ends s
    have b := h2.ends s
    simp only [finishes, List.count_append, List.countP_append] at *
    omega

theorem balanced_quiet (n : Nat) (e : Event) (h1 : ∀ i, e.startsId i = false)
    (h2 : ∀ s, e ≠ .finish s) : Balanced n n [e] := by
  refine ⟨le_refl n, fun i => ?_, fun s => ?_⟩
  · rw [if_neg (by omega)]; simp [h1 i]
  · have h3 : ∀ s, e.startsSpan s = false := by
      intro s; cases e <;> simp_all [Event.startsSpan, Event.startsId]
    have := h2 s
    simp [finishes, h3 s, List.count_singleton]
    exact fun h => this h

theorem balanced_span {n m : Nat} {body : List Event} (s : SpanRef) (name : String)
    (kind : SpanKind) (parent : Option SpanRef) (hs : s.id = n)
    (h : Balanced (n + 1) m body) :
    Balanced n m (.start s name kind parent :: (body ++ [.finish s])) := by
  have hle := h.le
  refine ⟨by omega, fun i => ?_, fun t => ?_⟩
  · have a := h.ids i
    simp only [List.countP_cons, List.countP_append, List.countP_nil, Event.startsId, hs]
    rw [a]
    by_cases hi : n = i
    · subst hi
      have h1 : ¬ (n + 1 ≤ n ∧ n < m) := by omega
      have h2 : n ≤ n ∧ n < m := by omega
      simp [h1, h2]
    · have h1 : (n == i) = false := by simpa using hi
      simp only [h1]
      split_ifs <;> simp_all <;> omega
  · have a := h.ends t
    simp only [finishes, List.count_cons, List.count_append, List.count_nil,
      List.countP_cons, List.countP_append, List.countP_nil, Event.startsSpan] at *
    by_cases hst : s = t
    · subst hst; simp; omega
    · have h1 : (s == t) = false := by simpa using hst
      simp [h1, hst]; omega

/-! ## Composition rules -/

theorem tidy_silent (p : Prog α)
    (h : ∀ w, (p w).2.events = w.events ∧ (p w).2.nextSpan = w.nextSpan) : Tidy p := by
  intro w
  refine ⟨[], by simp [(h w).1], ?_⟩
  rw [(h w).2]
  exact balanced_nil _

theorem tidy_pure (a : α) : Tidy (pure a : Prog α) :=
  tidy_silent _ fun _ => ⟨rfl, rfl⟩

theorem tidy_emit (e : Event) (h1 : ∀ i, e.startsId i = false) (h2 : ∀ s, e ≠ .finish s) :
    Tidy (emit e) :=
  fun _ => ⟨[e], rfl, balanced_quiet _ e h1 h2⟩

theorem tidy_bind {p : Prog α} {k : α → Prog β} (hp : Tidy p) (hk : ∀ a, Tidy (k a)) :
    Tidy (p >>= k) := by
  intro w
  obtain ⟨e1, h1, b1⟩ := hp w
  rw [Prog.bind_apply]
  unfold Prog.seq
  rcases hpw : p w with ⟨o, w1⟩
  rw [hpw] at h1 b1
  cases o with
  | ok a =>
    obtain ⟨e2, h2, b2⟩ := hk a w1
    refine ⟨e1 ++ e2, ?_, balanced_append b1 b2⟩
    simp only at h1 ⊢
    rw [h2, h1, List.append_assoc]
  | panic m => exact ⟨e1, h1, b1⟩
  | exit c => exact ⟨e1, h1, b1⟩

theorem tidy_defer {d : Prog Unit} {body : Prog α} (hd : Tidy d) (hb : Tidy body) :
    Tidy (deferCall d body) := by
  intro w
  obtain ⟨e1, h1, b1⟩ := hb w
  unfold deferCall
  rcases hpw : body w with ⟨o, w1⟩
  rw [hpw] at h1 b1
  obtain ⟨e2, h2, b2⟩ := hd w1
  have h12 : (d w1).2.events = w.events ++ (e1 ++ e2) := by
    simp only at h1
    rw [h2, h1, List.append_assoc]
  have b12 := balanced_append b1 b2
  cases o with
  | ok a =>
    dsimp only
    rcases hd1 : d w1 with ⟨o2, w2⟩
    rw [hd1] at h12 b12
    cases o2 <;> exact ⟨e1 ++ e2, h12, b12⟩
  | panic m =>
    dsimp only
    rcases hd1 : d w1 with ⟨o2, w2⟩
    rw [hd1] at h12 b12
    cases o2 <;> exact ⟨e1 ++ e2, h12, b12⟩
  | exit c => exact ⟨e1, h1, b1⟩

theorem yields_mono {P Q : α → Prop} {p : Prog α} (h : Yields P p) (hPQ : ∀ a, P a → Q a) :
    Yields Q p := by
  intro w
  have := h w
  rcases hpw : (p w).1 with a | m | c <;> simp only [hpw] at this ⊢
  exact hPQ a this

theorem yields_pure {P : α → Prop} (a : α) (h : P a) : Yields P (pure a : Prog α) :=
  fun _ => h

theorem yields_emit (e : Event) : Yields (fun _ => True) (emit e) := fun _ => trivial

theorem yields_bind {P : α → Prop} {Q : β → Prop} {p : Prog α} {k : α → Prog β}
    (hp : Yields P p) (hk : ∀ a, P a → Yields Q (k a)) : Yields Q (p >>= k) := by
  intro w
  have h1 := hp w
  rw [Prog.bind_apply]
  unfold Prog.seq
  rcases hpw : p w with ⟨o, w1⟩
  rw [hpw] at h1
  cases o with
  | ok a => exact hk a h1 w1
  | panic m => trivial
  | exit c => exact h1

theorem yields_defer {Q : α → Prop} {d : Prog Unit} {body : Prog α}
    (hd : Yields (fun _ => True) d) (hb : Yields Q body) : Yields Q (deferCall d body) := by
  intro w
  have h1 := hb w
  unfold deferCall
  rcases hpw : body w with ⟨o, w1⟩
  rw [hpw] at h1
  have h2 := hd w1
  cases o with
  | ok a =>
    dsimp only
    rcases hd1 : d w1 with ⟨o2, w2⟩
    rw [hd1] at h2
    cases o2
    · exact h1
    · trivial
    · exact h2
  | panic m =>
    dsimp only
    rcases hd1 : d w1 with ⟨o2, w2⟩
    rw [hd1] at h2
    cases o2
    · trivial
    · trivial
    · exact h2
  | exit c => exact h1

theorem tracerStart_apply (ctx : Context) (name : String) (kind : SpanKind) (w : World) :
    tracerStart ctx name kind w
      = (.ok (⟨some (newSpanRef ctx w.nextSpan)⟩, newSpanRef ctx w.nextSpan),
          w.extend 1 [.start (newSpanRef ctx w.nextSpan) name kind ctx.span]) :=
  rfl

theorem newSpanRef_id (ctx : Context) (n : Nat) : (newSpanRef ctx n).id = n := by
  unfold newSpanRef; cases ctx.span <;> rfl

theorem since_of_append {w w2 : World} {evs : List Event} (h : w2.events = w.events ++ evs) :
    w.since w2 = evs := by
  simp [World.since, h]

theorem startsSpan_iff (s : SpanRef) (e : Event) :
    e.startsSpan s = true ↔ ∃ name kind parent, e = .start s name kind parent := by
  cases e <;> simp [Event.startsSpan]

theorem balanced_endedOnce {n m : Nat} {evs : List Event} (h : Balanced n m evs) :
    EndedOnce evs := by
  constructor
  · intro s name kind parent hmem
    have h1 : 0 < evs.countP (Event.startsSpan s) :=
      List.countP_pos_iff.mpr ⟨_, hmem, by simp [Event.startsSpan]⟩
    have h2 : evs.countP (Event.startsSpan s) ≤ evs.countP (Event.startsId s.id) := by
      apply List.countP_mono_left
      intro e _ he
      obtain ⟨a, b, c, rfl⟩ := (startsSpan_iff s e).mp he
      simp [Event.startsId]
    have h3 := h.ids s.id
    have h4 := h.ends s
    have h5 : evs.countP (Event.startsId s.id) ≤ 1 := by
      rw [h3]; split_ifs <;> omega
    omega
  · intro s hmem
    have h1 : 0 < finishes s evs := List.count_pos_iff.mpr hmem
    rw [h.ends s] at h1
    obtain ⟨e, he, hs⟩ := List.countP_pos_iff.mp h1
    obtain ⟨a, b, c, rfl⟩ := (startsSpan_iff s e).mp hs
    exact ⟨a, b, c, he⟩

/-- Shape of the trace of a function that starts a span, defers its end and runs a
body that cannot exit. -/
theorem span_shape (ctx : Context) (name : String) (kind : SpanKind)
    (k body : Context × SpanRef → Prog α)
    (hk : ∀ cs, k cs = deferCall (spanEnd cs.2) (body cs))
    (hb : ∀ cs, Tidy (body cs)) (hx : ∀ cs, Yields (fun _ => True) (body cs)) (w : World) :
    ∃ e1, ((tracerStart ctx name kind >>= k) w).2.events
        = w.events ++ (.start (newSpanRef ctx w.nextSpan) name kind ctx.span
            :: (e1 ++ [.finish (newSpanRef ctx w.nextSpan)])) ∧
      Balanced w.nextSpan ((tracerStart ctx name kind >>= k) w).2.nextSpan
        (.start (newSpanRef ctx w.nextSpan) name kind ctx.span
            :: (e1 ++ [.finish (newSpanRef ctx w.nextSpan)])) := by
  rw [Prog.bind_apply]
  unfold Prog.seq
  rw [tracerStart_apply]
  dsimp only
  rw [hk]
  have hsid := newSpanRef_id ctx w.nextSpan
  generalize newSpanRef ctx w.nextSpan = s at *
  generalize hw1 : w.extend 1 [.start s name kind ctx.span] = w1
  have hw1e : w1.events = w.events ++ [.start s name kind ctx.span] := by rw [← hw1]; rfl
  have hw1n : w1.nextSpan = w.nextSpan + 1 := by rw [← hw1]; rfl
  obtain ⟨e1, h1, b1⟩ := hb (⟨some s⟩, s) w1
  have hx1 := hx (⟨some s⟩, s) w1
  unfold deferCall
  dsimp only
  rcases hbw : body (⟨some s⟩, s) w1 with ⟨o, w2⟩
  rw [hbw] at h1 b1 hx1
  rw [hw1n] at b1
  simp only at h1 b1 hx1
  have key : (spanEnd s w2) = (.ok (), { w2 with events := w2.events ++ [.finish s] }) := rfl
  have bal := balanced_span s name kind ctx.span hsid b1
  have hev : w2.events ++ [Event.finish s]
      = w.events ++ (.start s name kind ctx.span :: (e1 ++ [.finish s])) := by
    rw [h1, hw1e]; simp
  cases o with
  | ok a => simp only [key]; exact ⟨_, hev, bal⟩
  | panic m => simp only [key]; exact ⟨_, hev, bal⟩
  | exit c => exact absurd hx1 (by simp)

theorem tidy_span (ctx : Context) (name : String) (kind : SpanKind)
    (k body : Context × SpanRef → Prog α)
    (hk : ∀ cs, k cs = deferCall (spanEnd cs.2) (body cs))
    (hb : ∀ cs, Tidy (body cs)) (hx : ∀ cs, Yields (fun _ => True) (body cs)) :
    Tidy (tracerStart ctx name kind >>= k) := fun w =>
  let ⟨_, h, b⟩ := span_shape ctx name kind k body hk hb hx w
  ⟨_, h, b⟩

theorem spanScoped_of (ctx : Context) (name : String) (kind : SpanKind)
    (k body : Context × SpanRef → Prog α)
    (hk : ∀ cs, k cs = deferCall (spanEnd cs.2) (body cs))
    (hb : ∀ cs, Tidy (body cs)) (hx : ∀ cs, Yields (fun _ => True) (body cs)) (w : World) :
    SpanScoped name kind ctx w ((tracerStart ctx name kind >>= k) w).2 := by
  obtain ⟨e1, h, b⟩ := span_shape ctx name kind k body hk hb hx w
  have hs := since_of_append h
  exact ⟨⟨e1, hs⟩, by rw [hs]; exact balanced_endedOnce b⟩

theorem yields_span {Q : α → Prop} (ctx : Context) (name : String) (kind : SpanKind)
    (k body : Context × SpanRef → Prog α)
    (hk : ∀ cs, k cs = deferCall (spanEnd cs.2) (body cs))
    (hx : ∀ cs, Yields Q (body cs)) :
    Yields Q (tracerStart ctx name kind >>= k) := by
  refine yields_bind (P := fun _ => True) (fun _ => trivial) (fun cs _ => ?_)
  rw [hk]
  exact yields_defer (yields_emit _) (hx cs)

/-! ## The collaborators are tidy -/

theorem tidy_event (e : Event) (h : e.isSpanEdge = false) : Tidy (emit e) := by
  refine tidy_emit e (fun i => ?_) (fun s hs => ?_)
  · cases e <;> simp_all [Event.isSpanEdge, Event.startsId]
  · subst hs; simp [Event.isSpanEdge] at h

theorem tidy_fixed (o : Outcome α) : Tidy (fun w => (o, w)) :=
  tidy_silent _ fun _ => ⟨rfl, rfl⟩

theorem injectionPoint_tidy : Tidy injectionPoint := by
  refine tidy_silent _ fun w => ?_
  unfold injectionPoint
  rcases h : w.inject with _ | _ | k <;> exact ⟨rfl, rfl⟩

theorem injectionPoint_yields : Yields (fun _ => True) injectionPoint := by
  intro w
  unfold injectionPoint
  rcases h : w.inject with _ | _ | k <;> trivial

theorem derefLog_tidy : Tidy derefLog := by
  refine tidy_silent _ fun w => ?_
  unfold derefLog
  cases h : w.log <;> exact ⟨rfl, rfl⟩

theorem derefLog_yields : Yields (fun _ => True) derefLog := by
  intro w
  unfold derefLog
  cases h : w.log <;> trivial

theorem write_tidy (g : Logger) (ctx : Context) (sev : Level) (msg : String)
    (fields : List LogField) : Tidy (g.write ctx sev msg fields) := by
  unfold Logger.write
  split
  · exact tidy_event _ rfl
  · exact tidy_pure _

theorem write_yields (g : Logger) (ctx : Context) (sev : Level) (msg : String)
    (fields : List LogField) : Yields (fun _ => True) (g.write ctx sev msg fields) := by
  unfold Logger.write
  split
  · exact yields_emit _
  · exact yields_pure _ trivial

theorem logCtx_tidy (ctx : Context) (sev : Level) (msg : String) (fields : List LogField) :
    Tidy (logCtx ctx sev msg fields) :=
  tidy_bind injectionPoint_tidy fun _ => tidy_bind derefLog_tidy fun _ => write_tidy _ _ _ _ _

theorem logCtx_yields (ctx : Context) (sev : Level) (msg : String) (fields : List LogField) :
    Yields (fun _ => True) (logCtx ctx sev msg fields) :=
  yields_bind injectionPoint_yields fun _ _ =>
    yields_bind derefLog_yields fun _ _ => write_yields _ _ _ _ _

theorem logInfoContext_tidy (ctx : Context) (msg : String) (fields : List LogField) :
    Tidy (logInfoContext ctx msg fields) :=
  tidy_bind injectionPoint_tidy fun _ => tidy_bind derefLog_tidy fun _ => write_tidy _ _ _ _ _

theorem logInfoContext_yields (ctx : Context) (msg : String) (fields : List LogField) :
    Yields (fun _ => True) (logInfoContext ctx msg fields) :=
  yields_bind injectionPoint_yields fun _ _ =>
    yields_bind derefLog_yields fun _ _ => write_yields _ _ _ _ _

theorem sugarCtxInfow_tidy (sugar : Logger) (ctx : Context) (msg : String)
    (fields : List LogField) : Tidy (sugarCtxInfow sugar ctx msg fields) :=
  tidy_bind injectionPoint_tidy fun _ => write_tidy _ _ _ _ _

theorem sugarCtxInfow_yields (sugar : Logger) (ctx : Context) (msg : String)
    (fields : List LogField) : Yields (fun _ => True) (sugarCtxInfow sugar ctx msg fields) :=
  yields_bind injectionPoint_yields fun _ _ => write_yields _ _ _ _ _

theorem logSync_tidy : Tidy logSync :=
  tidy_bind derefLog_tidy fun _ => tidy_event _ rfl

theorem logSync_yields : Yields (fun _ => True) logSync :=
  yields_bind derefLog_yields fun _ _ => yields_emit _

theorem spanRecordError_tidy (s : SpanRef) (err : String) (stack : Bool) :
    Tidy (spanRecordError s err stack) :=
  tidy_bind injectionPoint_tidy fun _ => tidy_event _ rfl

theorem spanRecordError_yields (s : SpanRef) (err : String) (stack : Bool) :
    Yields (fun _ => True) (spanRecordError s err stack) :=
  yields_bind injectionPoint_yields fun _ _ => yields_emit _

theorem spanSetStatus_tidy (s : SpanRef) (code : Code) (msg : String) :
    Tidy (spanSetStatus s code msg) :=
  tidy_bind injectionPoint_tidy fun _ => tidy_event _ rfl

theorem spanSetStatus_yields (s : SpanRef) (code : Code) (msg : String) :
    Yields (fun _ => True) (spanSetStatus s code msg) :=
  yields_bind injectionPoint_yields fun _ _ => yields_emit _

/-! ### The functions of `main.go` -/

theorem add_tidy (ctx : Context) (x y : Int) : Tidy (add ctx x y) :=
  tidy_span ctx _ _ _ (fun _ => pure (wrapInt64 (x + y))) (fun ⟨_, _⟩ => rfl)
    (fun _ => tidy_pure _) (fun _ => yields_pure _ trivial)

theorem add_yields (ctx : Context) (x y : Int) :
    Yields (fun v => v = wrapInt64 (x + y)) (add ctx x y) :=
  yields_span ctx _ _ _ (fun _ => pure (wrapInt64 (x + y))) (fun ⟨_, _⟩ => rfl)
    (fun _ => yields_pure _ rfl)

theorem multiply_tidy (ctx : Context) (x y : Int) : Tidy (multiply ctx x y) :=
  tidy_span ctx _ _ _
    (fun cs => do
      logCtx cs.1 .info "multiply " [.int64 "x" x, .int64 "y" y]
      pure (wrapInt64 (x * y)))
    (fun ⟨_, _⟩ => rfl)
    (fun _ => tidy_bind (logCtx_tidy _ _ _ _) fun _ => tidy_pure _)
    (fun _ => yields_bind (logCtx_yields _ _ _ _) fun _ _ => yields_pure _ trivial)

theorem multiply_yields (ctx : Context) (x y : Int) :
    Yields (fun v => v = wrapInt64 (x * y)) (multiply ctx x y) :=
  yields_span ctx _ _ _
    (fun cs => do
      logCtx cs.1 .info "multiply " [.int64 "x" x, .int64 "y" y]
      pure (wrapInt64 (x * y)))
    (fun ⟨_, _⟩ => rfl)
    (fun _ => yields_bind (logCtx_yields _ _ _ _) fun _ _ => yields_pure _ rfl)

theorem getDatabaseUser_tidy (ctx : Context) (email : String) :
    Tidy (getDatabaseUser ctx email) :=
  tidy_span ctx _ _ _
    (fun cs => do
      let sugar ← logSugar
      sugarCtxInfow sugar cs.1 "getDatabaseUser INFO " [.string "email" email]
      logInfoContext cs.1 "getDatabaseUser INFO2 " [.string "email" email]
      logCtx cs.1 .error "getDatabaseUser ERR " [.string "email" email]
      pure 42)
    (fun ⟨_, _⟩ => rfl)
    (fun _ => tidy_bind derefLog_tidy fun _ =>
      tidy_bind (sugarCtxInfow_tidy _ _ _ _) fun _ =>
      tidy_bind (logInfoContext_tidy _ _ _) fun _ =>
      tidy_bind (logCtx_tidy _ _ _ _) fun _ => tidy_pure _)
    (fun _ => yields_bind derefLog_yields fun _ _ =>
      yields_bind (sugarCtxInfow_yields _ _ _ _) fun _ _ =>
      yields_bind (logInfoContext_yields _ _ _) fun _ _ =>
      yields_bind (logCtx_yields _ _ _ _) fun _ _ => yields_pure _ trivial)

theorem getDatabaseUser_yields (ctx : Context) (email : String) :
    Yields (fun v => v = 42) (getDatabaseUser ctx email) :=
  yields_span ctx _ _ _
    (fun cs => do
      let sugar ← logSugar
      sugarCtxInfow sugar cs.1 "getDatabaseUser INFO " [.string "email" email]
      logInfoContext cs.1 "getDatabaseUser INFO2 " [.string "email" email]
      logCtx cs.1 .error "getDatabaseUser ERR " [.string "email" email]
      pure 42)
    (fun ⟨_, _⟩ => rfl)
    (fun _ => yields_bind derefLog_yields fun _ _ =>
      yields_bind (sugarCtxInfow_yields _ _ _ _) fun _ _ =>
      yields_bind (logInfoContext_yields _ _ _) fun _ _ =>
      yields_bind (logCtx_yields _ _ _ _) fun _ _ => yields_pure _ rfl)

theorem getUser_tidy (ctx : Context) (email : String) : Tidy (getUser ctx email) :=
  tidy_span ctx _ _ _ (fun cs => getDatabaseUser cs.1 email) (fun ⟨_, _⟩ => rfl)
    (fun _ => getDatabaseUser_tidy _ _)
    (fun _ => yields_mono (getDatabaseUser_yields _ _) fun _ _ => trivial)

theorem getUser_yields (ctx : Context) (email : String) :
    Yields (fun v => v = 42) (getUser ctx email) :=
  yields_span ctx _ _ _ (fun cs => getDatabaseUser cs.1 email) (fun ⟨_, _⟩ => rfl)
    (fun _ => getDatabaseUser_yields _ _)

theorem someFuncWithError_tidy (ctx : Context) : Tidy (someFuncWithError ctx) :=
  tidy_span ctx _ _ _
    (fun cs => do
      spanRecordError cs.2 "dummy error" true
      spanSetStatus cs.2 .error "dummy error")
    (fun ⟨_, _⟩ => rfl)
    (fun _ => tidy_bind (spanRecordError_tidy _ _ _) fun _ => spanSetStatus_tidy _ _ _)
    (fun _ => yields_bind (spanRecordError_yields _ _ _) fun _ _ => spanSetStatus_yields _ _ _)

theorem someFuncWithError_yields (ctx : Context) :
    Yields (fun _ => True) (someFuncWithError ctx) :=
  yields_span ctx _ _ _
    (fun cs => do
      spanRecordError cs.2 "dummy error" true
      spanSetStatus cs.2 .error "dummy error")
    (fun ⟨_, _⟩ => rfl)
    (fun _ => yields_bind (spanRecordError_yields _ _ _) fun _ _ => spanSetStatus_yields _ _ _)

/-! ## Runs without injected fault -/

@[simp] theorem extend_inject (w : World) (k : Nat) (evs : List Event) :
    (w.extend k evs).inject = w.inject := rfl

@[simp] theorem extend_log (w : World) (k : Nat) (evs : List Event) :
    (w.extend k evs).log = w.log := rfl

@[simp] theorem extend_env (w : World) (k : Nat) (evs : List Event) :
    (w.extend k evs).env = w.env := rfl

@[simp] theorem extend_nextSpan (w : World) (k : Nat) (evs : List Event) :
    (w.extend k evs).nextSpan = w.nextSpan + k := rfl

@[simp] theorem extend_events (w : World) (k : Nat) (evs : List Event) :
    (w.extend k evs).events = w.events ++ evs := rfl

@[simp] theorem extend_extend (w : World) (k l : Nat) (e1 e2 : List Event) :
    (w.extend k e1).extend l e2 = w.extend (k + l) (e1 ++ e2) := by
  simp [World.extend, Nat.add_assoc]

@[simp] theorem extend_zero_nil (w : World) : w.extend 0 [] = w := by
  cases w; simp [World.extend]

theorem emit_apply (e : Event) (w : World) : emit e w = (.ok (), w.extend 0 [e]) := rfl

theorem since_extend (w : World) (k : Nat) (evs : List Event) :
    w.since (w.extend k evs) = evs := by
  simp [World.since]

theorem write_run (g : Logger) (ctx : Context) (sev : Level) (msg : String)
    (fields : List LogField) (w : World) :
    g.write ctx sev msg fields w = (.ok (), w.extend 0 (g.output ctx sev msg fields)) := by
  unfold Logger.write Logger.output
  split
  · rfl
  · simp [Prog.pure_apply]

theorem injectionPoint_run {w : World} (h : w.inject = none) :
    injectionPoint w = (.ok (), w) := by
  unfold injectionPoint; rw [h]

theorem derefLog_run {w : World} {g : Logger} (h : w.log = some g) :
    derefLog w = (.ok g, w) := by
  unfold derefLog; rw [h]

theorem logCtx_run {w : World} {g : Logger} (h1 : w.inject = none) (h2 : w.log = some g)
    (ctx : Context) (sev : Level) (msg : String) (fields : List LogField) :
    logCtx ctx sev msg fields w = (.ok (), w.extend 0 (g.output ctx sev msg fields)) := by
  unfold logCtx
  simp only [Prog.bind_apply, Prog.seq, injectionPoint_run h1, derefLog_run h2, write_run]

theorem logInfoContext_run {w : World} {g : Logger} (h1 : w.inject = none)
    (h2 : w.log = some g) (ctx : Context) (msg : String) (fields : List LogField) :
    logInfoContext ctx msg fields w = (.ok (), w.extend 0 (g.output ctx .info msg fields)) := by
  unfold logInfoContext
  simp only [Prog.bind_apply, Prog.seq, injectionPoint_run h1, derefLog_run h2, write_run]

theorem sugarCtxInfow_run {w : World} (h1 : w.inject = none) (sugar : Logger)
    (ctx : Context) (msg : String) (fields : List LogField) :
    sugarCtxInfow sugar ctx msg fields w
      = (.ok (), w.extend 0 (sugar.output ctx .info msg fields)) := by
  unfold sugarCtxInfow
  simp only [Prog.bind_apply, Prog.seq, injectionPoint_run h1, write_run]

theorem spanEnd_apply (s : SpanRef) (w : World) :
    spanEnd s w = (.ok (), w.extend 0 [.finish s]) := rfl

theorem add_run (ctx : Context) (x y : Int) (w : World) :
    add ctx x y w = (.ok (wrapInt64 (x + y)),
      w.extend 1 [.start (newSpanRef ctx w.nextSpan) "Addition" .internal ctx.span,
        .finish (newSpanRef ctx w.nextSpan)]) := by
  unfold add
  simp [Prog.bind_apply, Prog.seq, tracerStart_apply, deferCall, spanEnd_apply, Prog.pure_apply]

theorem multiply_run {w : World} {g : Logger} (h1 : w.inject = none) (h2 : w.log = some g)
    (ctx : Context) (x y : Int) :
    multiply ctx x y w = (.ok (wrapInt64 (x * y)),
      w.extend 1 (.start (newSpanRef ctx w.nextSpan) "Multiplication" .server ctx.span
        :: (g.output ⟨some (newSpanRef ctx w.nextSpan)⟩ .info "multiply "
              [.int64 "x" x, .int64 "y" y]
            ++ [.finish (newSpanRef ctx w.nextSpan)]))) := by
  unfold multiply
  simp [Prog.bind_apply, Prog.seq, tracerStart_apply, deferCall, spanEnd_apply, Prog.pure_apply,
    logCtx_run (w := w.extend 1 _) (g := g) h1 h2]

theorem getDatabaseUser_run {w : World} {g : Logger} (h1 : w.inject = none)
    (h2 : w.log = some g) (ctx : Context) (email : String) :
    getDatabaseUser ctx email w = (.ok 42,
      w.extend 1 (.start (newSpanRef ctx w.nextSpan) "getDatabaseUser" .server ctx.span
        :: (g.output ⟨some (newSpanRef ctx w.nextSpan)⟩ .info "getDatabaseUser INFO "
              [.string "email" email]
            ++ (g.output ⟨some (newSpanRef ctx w.nextSpan)⟩ .info "getDatabaseUser INFO2 "
              [.string "email" email]
            ++ (g.output ⟨some (newSpanRef ctx w.nextSpan)⟩ .error "getDatabaseUser ERR "
              [.string "email" email]
            ++ [.finish (newSpanRef ctx w.nextSpan)]))))) := by
  unfold getDatabaseUser
  simp [Prog.bind_apply, Prog.seq, tracerStart_apply, deferCall, spanEnd_apply, Prog.pure_apply,
    logSugar, derefLog_run (w := w.extend 1 _) (g := g) h2,
    sugarCtxInfow_run (w := w.extend 1 _) h1,
    logInfoContext_run (w := w.extend 1 _) (g := g) h1 h2,
    logCtx_run (w := w.extend 1 _) (g := g) h1 h2]

theorem getUser_run {w : World} {g : Logger} (h1 : w.inject = none)
    (h2 : w.log = some g) (ctx : Context) (email : String) :
    getUser ctx email w = (.ok 42,
      w.extend 2 (.start (newSpanRef ctx w.nextSpan) "getUser" .server ctx.span
        :: .start (newSpanRef ⟨some (newSpanRef ctx w.nextSpan)⟩ (w.nextSpan + 1))
            "getDatabaseUser" .server (some (newSpanRef ctx w.nextSpan))
        :: (g.output ⟨some (newSpanRef ⟨some (newSpanRef ctx w.nextSpan)⟩ (w.nextSpan + 1))⟩
              .info "getDatabaseUser INFO " [.string "email" email]
            ++ (g.output ⟨some (newSpanRef ⟨some (newSpanRef ctx w.nextSpan)⟩ (w.nextSpan + 1))⟩
              .info "getDatabaseUser INFO2 " [.string "email" email]
            ++ (g.output ⟨some (newSpanRef ⟨some (newSpanRef ctx w.nextSpan)⟩ (w.nextSpan + 1))⟩
              .error "getDatabaseUser ERR " [.string "email" email]
            ++ [.finish (newSpanRef ⟨some (newSpanRef ctx w.nextSpan)⟩ (w.nextSpan + 1)),
                .finish (newSpanRef ctx w.nextSpan)]))))) := by
  unfold getUser
  simp [Prog.bind_apply, Prog.seq, tracerStart_apply, deferCall, spanEnd_apply,
    getDatabaseUser_run (w := w.extend 1 _) (g := g) h1 h2]

theorem someFuncWithError_run {w : World} (h1 : w.inject = none) (ctx : Context) :
    someFuncWithError ctx w = (.ok (),
      w.extend 1 [.start (newSpanRef ctx w.nextSpan) "someFuncWithError" .internal ctx.span,
        .recordError (newSpanRef ctx w.nextSpan) "dummy error" true,
        .setStatus (newSpanRef ctx w.nextSpan) .error "dummy error",
        .finish (newSpanRef ctx w.nextSpan)]) := by
  unfold someFuncWithError
  simp [Prog.bind_apply, Prog.seq, tracerStart_apply, deferCall, spanEnd_apply,
    spanRecordError, spanSetStatus, injectionPoint_run (w := w.extend _ _) h1, emit_apply]

/-! ## The level override -/

theorem find_store_same (name : String) (x : Int) (l : Struct) :
    Struct.find name (Struct.store name x l)
      = (Struct.find name l).map (fun f => { f with value := x }) := by
  induction l with
  | nil => rfl
  | cons f fs ih =>
    unfold Struct.store
    by_cases h : f.name = name
    · simp [h, Struct.find]
    · simp [h, Struct.find, ih]

theorem find_store_other (name other : String) (x : Int) (l : Struct) (hne : other ≠ name) :
    Struct.find other (Struct.store name x l) = Struct.find other l := by
  induction l with
  | nil => rfl
  | cons f fs ih =>
    unfold Struct.store
    by_cases h : f.name = name
    · have h2 : ¬ f.name = other := fun h3 => hne (h3.symm.trans h)
      rw [if_pos h]
      unfold Struct.find
      rw [if_neg h2, if_neg h2]
    · rw [if_neg h]
      unfold Struct.find
      rw [ih]

theorem intBits_cases {k : Kind} {bits : Nat} (h : k.intBits = some bits) :
    bits = 8 ∨ bits = 16 ∨ bits = 32 ∨ bits = 64 := by
  cases k <;> simp [Kind.intBits] at h <;> omega

theorem wrapInt_level {k : Kind} {bits : Nat} (h : k.intBits = some bits) (lvl : Level) :
    wrapInt bits lvl.ord = lvl.ord := by
  rcases intBits_cases h with rfl | rfl | rfl | rfl <;> cases lvl <;> decide

theorem wrapInt64_level (lvl : Level) : wrapInt64 lvl.ord = lvl.ord := by
  cases lvl <;> decide

theorem override_panics (level : Int) (l : Struct) (w : World)
    (h : ∀ f, l.find "minLevel" = some f → f.kind.intBits = none) :
    overrideMinimumSeverity level l w
      = (.panic "Cannot set unexported field minLevel on logger", w) := by
  unfold overrideMinimumSeverity FieldByName
  rcases hf : Struct.find "minLevel" l with _ | f
  · simp [Value.CanInt, Kind.intBits, goPanic]
  · have := h f hf
    simp [Value.CanInt, this, goPanic]

theorem override_run (level : Int) (l : Struct) (w : World) {f : FieldDecl} {bits : Nat}
    (hf : l.find "minLevel" = some f) (hk : f.kind.intBits = some bits) :
    overrideMinimumSeverity level l w
      = (.ok (l.store "minLevel" (wrapInt bits level)),
          w.extend 0 [.println (.logger (l.store "minLevel" (wrapInt bits level)))]) := by
  unfold overrideMinimumSeverity FieldByName
  rw [hf]
  cases hexp : f.exported <;>
    simp [Value.CanInt, Value.CanSet, Value.addrOf, Value.SetInt, NewAtElem, liftOutcome, hk,
      hexp, Prog.bind_apply, Prog.seq, Prog.pure_apply, println, emit_apply]

/-! ## The run of `main` -/

theorem main_eq : main = (do
    initLogger
    otelSetErrorHandler
    initUptrace
    deferCall (uptraceShutdown Context.background) do
      let cs ← tracerStart Context.background "main" .internal
      deferCall (spanEnd cs.2) (deferCall logSync (mainBody cs.1 cs.2))) := rfl

@[simp] theorem withLog_inject (w : World) (g : Logger) : (w.withLog g).inject = w.inject := rfl

@[simp] theorem withLog_log (w : World) (g : Logger) : (w.withLog g).log = some g := rfl

@[simp] theorem withLog_env (w : World) (g : Logger) : (w.withLog g).env = w.env := rfl

@[simp] theorem withLog_nextSpan (w : World) (g : Logger) :
    (w.withLog g).nextSpan = w.nextSpan := rfl

@[simp] theorem withLog_events (w : World) (g : Logger) : (w.withLog g).events = w.events := rfl

theorem enabled_after_store (z : ZapLogger) (l : Struct) {f : FieldDecl}
    (hf : l.find "minLevel" = some f) (x : Int) (s : Level) :
    (⟨z, l.store "minLevel" x⟩ : Logger).enabled s = decide (x ≤ s.ord) := by
  unfold Logger.enabled
  simp [find_store_same, hf]

theorem initLogger_panics (w : World)
    (h : ∀ f, w.loggerDecl.find "minLevel" = some f → f.kind.intBits = none) :
    initLogger w = (.panic "Cannot set unexported field minLevel on logger", w) := by
  unfold initLogger otelzapNew
  simp [Prog.bind_apply, Prog.seq, override_panics _ _ _ h]

theorem initLogger_run (w : World) {f : FieldDecl} {bits : Nat}
    (hf : w.loggerDecl.find "minLevel" = some f) (hk : f.kind.intBits = some bits) :
    initLogger w = (.ok (),
      ((w.extend 0 [.println (.logger (w.loggerDecl.store "minLevel" Level.info.ord))]).withLog
        ⟨⟨.debug⟩, w.loggerDecl.store "minLevel" Level.info.ord⟩).extend 0 [.replaceGlobals]) := by
  unfold initLogger otelzapNew
  simp [Prog.bind_apply, Prog.seq, override_run _ _ _ hf hk, wrapInt64_level, wrapInt_level hk,
    setLog, emit_apply, zapBuild]

theorem initUptrace_run {w : World} {g : Logger} {v : String} (h2 : w.log = some g)
    (hv : w.env.lookup "UPTRACE_DSN" = some v) :
    initUptrace w = (.ok (), w.extend 0 [.println (.level g.zap.level),
      .configure "otlp-example-uptrace" "v1.0.0" "production"]) := by
  unfold initUptrace
  simp [Prog.bind_apply, Prog.seq, logLevel, derefLog_run h2, Prog.pure_apply, println, emit_apply,
    osLookupEnv, hv, uptraceConfigureOpentelemetry]

theorem initUptrace_exits {w : World} {g : Logger} (h2 : w.log = some g)
    (hv : w.env.lookup "UPTRACE_DSN" = none) :
    initUptrace w = (.exit 1, w.extend 0 [.println (.level g.zap.level),
      .println (.text "warn: UPTRACE_DSN not set")]) := by
  unfold initUptrace
  simp [Prog.bind_apply, Prog.seq, logLevel, derefLog_run h2, Prog.pure_apply, println, emit_apply,
    osLookupEnv, hv, osExit]

theorem wrap_demo : wrapInt64 4 = 4 ∧ wrapInt64 40 = 40 ∧ wrapInt64 42 = 42 := by
  decide

theorem mainBody_run {w : World} {g : Logger} (h1 : w.inject = none) (h2 : w.log = some g)
    (ctx : Context) (span : SpanRef) :
    mainBody ctx span w = (.ok (), w.extend 6 (mainBodyTrace g ctx span w.nextSpan)) := by
  unfold mainBody mainBodyTrace
  simp [Prog.bind_apply, Prog.seq,
    logCtx_run (w := w) (g := g) h1 h2,
    logCtx_run (w := w.extend _ _) (g := g) h1 h2,
    getUser_run (w := w.extend _ _) (g := g) h1 h2,
    multiply_run (w := w.extend _ _) (g := g) h1 h2,
    add_run, someFuncWithError_run (w := w.extend _ _) h1, println, emit_apply, wrap_demo]

theorem withLog_extend (w : World) (g : Logger) (k : Nat) (evs : List Event) :
    (w.extend k evs).withLog g = (w.withLog g).extend k evs := rfl

theorem otelSetErrorHandler_apply (w : World) :
    otelSetErrorHandler w = (.ok (), w.extend 0 [.setErrorHandler]) := rfl

theorem logSync_run {w : World} {g : Logger} (h2 : w.log = some g) :
    logSync w = (.ok (), w.extend 0 [.sync]) := by
  unfold logSync
  simp [Prog.bind_apply, Prog.seq, derefLog_run h2, emit_apply]

/-- The run of `main` when the logger struct has an integer `minLevel` field, the DSN
is set and no fault is injected. -/
theorem main_run (w : World) {f : FieldDecl} {bits : Nat} {v : String}
    (h1 : w.inject = none)
    (hf : w.loggerDecl.find "minLevel" = some f) (hk : f.kind.intBits = some bits)
    (hv : w.env.lookup "UPTRACE_DSN" = some v) :
    main w = (.ok (),
      (w.withLog ⟨⟨.debug⟩, w.loggerDecl.store "minLevel" Level.info.ord⟩).extend 7
        ([.println (.logger (w.loggerDecl.store "minLevel" Level.info.ord)),
          .replaceGlobals, .setErrorHandler, .println (.level .debug),
          .configure "otlp-example-uptrace" "v1.0.0" "production",
          .start ⟨w.nextSpan, w.nextSpan⟩ "main" .internal none]
        ++ mainBodyTrace ⟨⟨.debug⟩, w.loggerDecl.store "minLevel" Level.info.ord⟩
            ⟨some ⟨w.nextSpan, w.nextSpan⟩⟩ ⟨w.nextSpan, w.nextSpan⟩ (w.nextSpan + 1)
        ++ [.sync, .finish ⟨w.nextSpan, w.nextSpan⟩, .shutdown Context.background])) := by
  rw [main_eq]
  simp [Prog.bind_apply, Prog.seq, initLogger_run w hf hk, otelSetErrorHandler_apply,
    withLog_extend,
    initUptrace_run (w := (w.withLog _).extend _ _) (g := ⟨⟨.debug⟩, _⟩) (v := v) rfl hv,
    deferCall, tracerStart_apply, spanEnd_apply, uptraceShutdown, emit_apply,
    mainBody_run (w := (w.withLog _).extend _ _) (g := ⟨⟨.debug⟩, _⟩) h1 rfl,
    logSync_run (w := (w.withLog _).extend _ _) (g := ⟨⟨.debug⟩, _⟩) rfl,
    newSpanRef, Context.background]

/-- The run of `main` when the DSN is not set. -/
theorem main_exits (w : World) {f : FieldDecl} {bits : Nat}
    (hf : w.loggerDecl.find "minLevel" = some f) (hk : f.kind.intBits = some bits)
    (hv : w.env.lookup "UPTRACE_DSN" = none) :
    main w = (.exit 1,
      (w.withLog ⟨⟨.debug⟩, w.loggerDecl.store "minLevel" Level.info.ord⟩).extend 0
        [.println (.logger (w.loggerDecl.store "minLevel" Level.info.ord)),
          .replaceGlobals, .setErrorHandler, .println (.level .debug),
          .println (.text "warn: UPTRACE_DSN not set")]) := by
  rw [main_eq]
  simp [Prog.bind_apply, Prog.seq, initLogger_run w hf hk, otelSetErrorHandler_apply,
    withLog_extend,
    initUptrace_exits (w := (w.withLog _).extend _ _) (g := ⟨⟨.debug⟩, _⟩) rfl hv]

/-- The run of `main` when the override of the level panics. -/
theorem main_panics (w : World)
    (h : ∀ f, w.loggerDecl.find "minLevel" = some f → f.kind.intBits = none) :
    main w = (.panic "Cannot set unexported field minLevel on logger", w) := by
  rw [main_eq]
  simp [Prog.bind_apply, Prog.seq, initLogger_panics w h]

/-! ## `main` is tidy -/

theorem override_tidy (level : Int) (l : Struct) : Tidy (overrideMinimumSeverity level l) := by
  intro w
  rcases hfind : l.find "minLevel" with _ | f
  · rw [override_panics level l w (by simp [hfind])]
    exact ⟨[], by simp, balanced_nil _⟩
  · rcases hk : f.kind.intBits with _ | bits
    · rw [override_panics level l w (by intro f2 h2; rw [hfind] at h2; cases h2; exact hk)]
      exact ⟨[], by simp, balanced_nil _⟩
    · rw [override_run level l w hfind hk]
      exact ⟨_, rfl, balanced_quiet _ _ (fun _ => rfl) (fun _ => by simp)⟩

theorem otelzapNew_tidy (z : ZapLogger) (opt : Struct → Prog Struct) (h : ∀ l, Tidy (opt l)) :
    Tidy (otelzapNew z opt) := by
  intro w
  obtain ⟨e, h1, b1⟩ := h w.loggerDecl w
  unfold otelzapNew
  rcases hrun : opt w.loggerDecl w with ⟨o, w1⟩
  rw [hrun] at h1 b1
  cases o <;> exact ⟨e, h1, b1⟩

theorem initLogger_tidy : Tidy initLogger :=
  tidy_bind (otelzapNew_tidy _ _ fun _ => override_tidy _ _) fun _ =>
    tidy_bind (tidy_silent _ fun _ => ⟨rfl, rfl⟩) fun _ => tidy_event _ rfl

theorem initUptrace_tidy : Tidy initUptrace := by
  unfold initUptrace
  refine tidy_bind (tidy_bind derefLog_tidy fun _ => tidy_pure _) fun _ =>
    tidy_bind (tidy_event _ rfl) fun _ =>
      tidy_bind (tidy_silent _ fun w => ?_) fun p => ?_
  · unfold osLookupEnv
    cases w.env.lookup "UPTRACE_DSN" <;> exact ⟨rfl, rfl⟩
  · obtain ⟨v, exits⟩ := p
    cases exits
    · dsimp only
      rw [if_pos (by decide)]
      exact tidy_bind (tidy_event _ rfl) fun _ =>
        tidy_bind (tidy_fixed _) fun _ => tidy_event _ rfl
    · dsimp only
      rw [if_neg (by decide)]
      exact tidy_bind (tidy_pure _) fun _ => tidy_event _ rfl

theorem mainBody_tidy (ctx : Context) (span : SpanRef) : Tidy (mainBody ctx span) :=
  tidy_bind (logCtx_tidy _ _ _ _) fun _ =>
  tidy_bind (logCtx_tidy _ _ _ _) fun _ =>
  tidy_bind (logCtx_tidy _ _ _ _) fun _ =>
  tidy_bind (logCtx_tidy _ _ _ _) fun _ =>
  tidy_bind (logCtx_tidy _ _ _ _) fun _ =>
  tidy_bind (getUser_tidy _ _) fun _ =>
  tidy_bind (logCtx_tidy _ _ _ _) fun _ =>
  tidy_bind (multiply_tidy _ _ _) fun _ =>
  tidy_bind (multiply_tidy _ _ _) fun _ =>
  tidy_bind (add_tidy _ _ _) fun _ =>
  tidy_bind (logCtx_tidy _ _ _ _) fun _ =>
  tidy_bind (someFuncWithError_tidy _) fun _ => tidy_event _ rfl

theorem mainBody_yields (ctx : Context) (span : SpanRef) :
    Yields (fun _ => True) (mainBody ctx span) :=
  yields_bind (logCtx_yields _ _ _ _) fun _ _ =>
  yields_bind (logCtx_yields _ _ _ _) fun _ _ =>
  yields_bind (logCtx_yields _ _ _ _) fun _ _ =>
  yields_bind (logCtx_yields _ _ _ _) fun _ _ =>
  yields_bind (logCtx_yields _ _ _ _) fun _ _ =>
  yields_bind (getUser_yields _ _) fun _ _ =>
  yields_bind (logCtx_yields _ _ _ _) fun _ _ =>
  yields_bind (multiply_yields _ _ _) fun _ _ =>
  yields_bind (multiply_yields _ _ _) fun _ _ =>
  yields_bind (add_yields _ _ _) fun _ _ =>
  yields_bind (logCtx_yields _ _ _ _) fun _ _ =>
  yields_bind (someFuncWithError_yields _) fun _ _ => yields_emit _

theorem main_tidy : Tidy main := by
  rw [main_eq]
  exact tidy_bind initLogger_tidy fun _ =>
    tidy_bind (tidy_event _ rfl) fun _ =>
    tidy_bind initUptrace_tidy fun _ =>
    tidy_defer (tidy_event _ rfl)
      (tidy_span _ _ _ _ (fun cs => deferCall logSync (mainBody cs.1 cs.2)) (fun _ => rfl)
        (fun _ => tidy_defer logSync_tidy (mainBody_tidy _ _))
        (fun _ => yields_defer logSync_yields (mainBody_yields _ _)))

/-! ## Normal returns of sequenced and deferred code -/

theorem bind_ok {p : Prog α} {k : α → Prog β} {w : World} {b : β}
    (h : ((p >>= k) w).1 = .ok b) : ∃ a w1, p w = (.ok a, w1) ∧ (p >>= k) w = k a w1 := by
  rw [Prog.bind_apply] at h ⊢
  unfold Prog.seq at h ⊢
  rcases hp : p w with ⟨o, w1⟩
  rw [hp] at h
  cases o with
  | ok a => exact ⟨a, w1, rfl, rfl⟩
  | panic m => simp at h
  | exit c => simp at h

theorem defer_emit_ok {e : Event} {body : Prog α} {w : World} {a : α}
    (h : (deferCall (emit e) body w).1 = .ok a) :
    ∃ w1, body w = (.ok a, w1) ∧ deferCall (emit e) body w = (.ok a, w1.extend 0 [e]) := by
  unfold deferCall at h ⊢
  rcases hb : body w with ⟨o, w1⟩
  rw [hb] at h
  cases o with
  | ok a2 =>
    simp only [emit_apply] at h ⊢
    cases h
    exact ⟨w1, rfl, rfl⟩
  | panic m => simp [emit_apply] at h
  | exit c => simp at h

theorem defer_sync_ok {body : Prog α} {w : World} {a : α}
    (h : (deferCall logSync body w).1 = .ok a) :
    ∃ w1, body w = (.ok a, w1) ∧ deferCall logSync body w = (.ok a, w1.extend 0 [.sync]) := by
  unfold deferCall at h ⊢
  rcases hb : body w with ⟨o, w1⟩
  rw [hb] at h
  cases o with
  | ok a2 =>
    rcases hl : w1.log with _ | g
    · have : logSync w1 = (.panic nilDeref, w1) := by
        unfold logSync derefLog
        simp [Prog.bind_apply, Prog.seq, hl]
      simp [this] at h
    · simp only [logSync_run hl] at h ⊢
      cases h
      exact ⟨w1, rfl, rfl⟩
  | panic m =>
    rcases hl : w1.log with _ | g
    · have : logSync w1 = (.panic nilDeref, w1) := by
        unfold logSync derefLog
        simp [Prog.bind_apply, Prog.seq, hl]
      simp [this] at h
    · simp [logSync_run hl] at h
  | exit c => simp at h

/-! ## The claims -/

theorem since_withLog_extend (w : World) (g : Logger) (k : Nat) (evs : List Event) :
    w.since ((w.withLog g).extend k evs) = evs := by
  simp [World.since]

theorem demo_output {l : Struct} {f : FieldDecl} (hf : l.find "minLevel" = some f)
    (z : ZapLogger) (ctx : Context) (sev : Level) (msg : String) (fields : List LogField)
    (hs : sev ≠ .debug) :
    (⟨z, l.store "minLevel" Level.info.ord⟩ : Logger).output ctx sev msg fields
      = [.record ⟨sev, msg, fields, ctx.span⟩] := by
  unfold Logger.output
  rw [enabled_after_store z l hf]
  cases sev <;> simp_all [Level.ord]

/-- The trace of the normal run of `main`, every log call resolved. -/
theorem main_since (w : World) {f : FieldDecl} {bits : Nat} {v : String}
    (h1 : w.inject = none)
    (hf : w.loggerDecl.find "minLevel" = some f) (hk : f.kind.intBits = some bits)
    (hv : w.env.lookup "UPTRACE_DSN" = some v) :
    w.since (main w).2 =
      [.println (.logger (w.loggerDecl.store "minLevel" Level.info.ord)),
        .replaceGlobals, .setErrorHandler, .println (.level .debug),
        .configure "otlp-example-uptrace" "v1.0.0" "production",
        .start ⟨w.nextSpan, w.nextSpan⟩ "main" .internal none,
        .record ⟨.error, "hello from zap", [.error "hello world", .string "foo" "bar"],
          some ⟨w.nextSpan, w.nextSpan⟩⟩,
        .record ⟨.info, "This is an INFO", [], some ⟨w.nextSpan, w.nextSpan⟩⟩,
        .record ⟨.warn, "This is a WARN", [], some ⟨w.nextSpan, w.nextSpan⟩⟩,
        .record ⟨.error, "This is an ERROR", [], some ⟨w.nextSpan, w.nextSpan⟩⟩,
        .record ⟨.info, "starting the application", [], some ⟨w.nextSpan, w.nextSpan⟩⟩,
        .start ⟨w.nextSpan + 1, w.nextSpan⟩ "getUser" .server (some ⟨w.nextSpan, w.nextSpan⟩),
        .start ⟨w.nextSpan + 2, w.nextSpan⟩ "getDatabaseUser" .server
          (some ⟨w.nextSpan + 1, w.nextSpan⟩),
        .record ⟨.info, "getDatabaseUser INFO ", [.string "email" "haha@bla.com"],
          some ⟨w.nextSpan + 2, w.nextSpan⟩⟩,
        .record ⟨.info, "getDatabaseUser INFO2 ", [.string "email" "haha@bla.com"],
          some ⟨w.nextSpan + 2, w.nextSpan⟩⟩,
        .record ⟨.error, "getDatabaseUser ERR ", [.string "email" "haha@bla.com"],
          some ⟨w.nextSpan + 2, w.nextSpan⟩⟩,
        .finish ⟨w.nextSpan + 2, w.nextSpan⟩,
        .finish ⟨w.nextSpan + 1, w.nextSpan⟩,
        .record ⟨.info, "getting the user ", [.int64 "getUser" 42],
          some ⟨w.nextSpan, w.nextSpan⟩⟩,
        .start ⟨w.nextSpan + 3, w.nextSpan⟩ "Multiplication" .server
          (some ⟨w.nextSpan, w.nextSpan⟩),
        .record ⟨.info, "multiply ", [.int64 "x" 2, .int64 "y" 2],
          some ⟨w.nextSpan + 3, w.nextSpan⟩⟩,
        .finish ⟨w.nextSpan + 3, w.nextSpan⟩,
        .start ⟨w.nextSpan + 4, w.nextSpan⟩ "Multiplication" .server
          (some ⟨w.nextSpan, w.nextSpan⟩),
        .record ⟨.info, "multiply ", [.int64 "x" 4, .int64 "y" 10],
          some ⟨w.nextSpan + 4, w.nextSpan⟩⟩,
        .finish ⟨w.nextSpan + 4, w.nextSpan⟩,
        .start ⟨w.nextSpan + 5, w.nextSpan⟩ "Addition" .internal (some ⟨w.nextSpan, w.nextSpan⟩),
        .finish ⟨w.nextSpan + 5, w.nextSpan⟩,
        .record ⟨.info, "the answer is ", [.int64 "multi result" 42],
          some ⟨w.nextSpan, w.nextSpan⟩⟩,
        .start ⟨w.nextSpan + 6, w.nextSpan⟩ "someFuncWithError" .internal
          (some ⟨w.nextSpan, w.nextSpan⟩),
        .recordError ⟨w.nextSpan + 6, w.nextSpan⟩ "dummy error" true,
        .setStatus ⟨w.nextSpan + 6, w.nextSpan⟩ .error "dummy error",
        .finish ⟨w.nextSpan + 6, w.nextSpan⟩,
        .println (.traceURL ⟨w.nextSpan, w.nextSpan⟩),
        .sync, .finish ⟨w.nextSpan, w.nextSpan⟩, .shutdown Context.background] := by
  rw [main_run w h1 hf hk hv, since_withLog_extend]
  simp [mainBodyTrace, demo_output hf, newSpanRef, Nat.add_assoc]

/-- C1: for every context (and every state in which the logger is set and no fault
is injected) `multiply(ctx,2,2) = 4`, `multiply(ctx,4,10) = 40`, `add(ctx,40,2) = 42`
and `getUser(ctx,"haha@bla.com") = 42`; in the run of `main` the only value logged
under "multi result" is 42 and the only value logged under "getUser" is 42. -/
theorem C1_demo_call_chain (ctx : Context) (w : World) (g : Logger) (w0 : World)
    (f : FieldDecl) (bits : Nat) (v : String)
    (h1 : w.inject = none) (h2 : w.log = some g)
    (h0 : w0.inject = none) (hf : w0.loggerDecl.find "minLevel" = some f)
    (hk : f.kind.intBits = some bits) (hv : w0.env.lookup "UPTRACE_DSN" = some v) :
    (multiply ctx 2 2 w).1 = .ok 4 ∧ (multiply ctx 4 10 w).1 = .ok 40 ∧
    (add ctx 40 2 w).1 = .ok 42 ∧ (getUser ctx "haha@bla.com" w).1 = .ok 42 ∧
    (main w0).1 = .ok () ∧
    loggedAs "multi result" (w0.since (main w0).2) = [42] ∧
    loggedAs "getUser" (w0.since (main w0).2) = [42] := by
  refine ⟨?_, ?_, ?_, ?_, ?_, ?_, ?_⟩
  · rw [multiply_run h1 h2]; simp [wrap_demo]
  · rw [multiply_run h1 h2]; simp [wrap_demo]
  · rw [add_run]; simp [wrap_demo]
  · rw [getUser_run h1 h2]
  · rw [main_run w0 h0 hf hk hv]
  · rw [main_since w0 h0 hf hk hv]; simp [loggedAs]
  · rw [main_since w0 h0 hf hk hv]; simp [loggedAs]

theorem C1_demo_call_chain_witness :
    (multiply Context.background 2 2 (demoWorld.withLog demoLogger)).1 = .ok 4 ∧
    (multiply Context.background 4 10 (demoWorld.withLog demoLogger)).1 = .ok 40 ∧
    (add Context.background 40 2 (demoWorld.withLog demoLogger)).1 = .ok 42 ∧
    (getUser Context.background "haha@bla.com" (demoWorld.withLog demoLogger)).1 = .ok 42 ∧
    (main demoWorld).1 = .ok () ∧
    loggedAs "multi result" (demoWorld.since (main demoWorld).2) = [42] ∧
    loggedAs "getUser" (demoWorld.since (main demoWorld).2) = [42] :=
  C1_demo_call_chain Context.background (demoWorld.withLog demoLogger) demoLogger demoWorld
    ⟨"minLevel", .int8, false, 1⟩ 8 "dsn" rfl rfl rfl (by decide) rfl (by decide)

/-- C2: after the minimum severity of a logger was overridden to a valid level `L`, a
log call of severity `s` appends a record exactly when `L ≤ s` and appends nothing
otherwise; after `initLogger` a Debug call appends nothing while Info, Warn and
Error calls append their record. -/
theorem C2_level_filter (L s : Level) (z : ZapLogger) (l : Struct) (f : FieldDecl) (bits : Nat)
    (w w2 : World) (ctx : Context) (msg : String) (fields : List LogField)
    (hf : l.find "minLevel" = some f) (hk : f.kind.intBits = some bits)
    (h2 : w2.inject = none) :
    (∃ l2, (overrideMinimumSeverity L.ord l w).1 = .ok l2 ∧
      ((w2.withLog ⟨z, l2⟩).since (logCtx ctx s msg fields (w2.withLog ⟨z, l2⟩)).2
        = if L.ord ≤ s.ord then [.record ⟨s, msg, fields, ctx.span⟩] else []) ∧
      ((logCtx ctx s msg fields (w2.withLog ⟨z, l2⟩)).1 = .ok ())) ∧
    (w.loggerDecl = l → w.inject = none →
      (initLogger w).1 = .ok () ∧
      (initLogger w).2.since (logCtx ctx .debug msg fields (initLogger w).2).2 = [] ∧
      (s ≠ .debug →
        (initLogger w).2.since (logCtx ctx s msg fields (initLogger w).2).2
          = [.record ⟨s, msg, fields, ctx.span⟩])) := by
  constructor
  · refine ⟨l.store "minLevel" L.ord, ?_, ?_, ?_⟩
    · rw [override_run _ _ _ hf hk, wrapInt_level hk]
    · rw [logCtx_run (w := w2.withLog ⟨z, l.store "minLevel" L.ord⟩)
        (g := ⟨z, l.store "minLevel" L.ord⟩) h2 rfl, since_extend]
      unfold Logger.output
      rw [enabled_after_store z l hf]
      simp
    · rw [logCtx_run (w := w2.withLog ⟨z, l.store "minLevel" L.ord⟩)
        (g := ⟨z, l.store "minLevel" L.ord⟩) h2 rfl]
  · intro hl hi
    subst hl
    rw [initLogger_run w hf hk]
    refine ⟨rfl, ?_, fun hs => ?_⟩
    · rw [logCtx_run (g := ⟨⟨.debug⟩, w.loggerDecl.store "minLevel" Level.info.ord⟩)
        (by simpa using hi) rfl, since_extend]
      unfold Logger.output
      rw [enabled_after_store _ _ hf]
      simp [Level.ord]
    · rw [logCtx_run (g := ⟨⟨.debug⟩, w.loggerDecl.store "minLevel" Level.info.ord⟩)
        (by simpa using hi) rfl, since_extend]
      exact demo_output hf _ _ _ _ _ hs

theorem C2_level_filter_witness :
    (∃ l2, (overrideMinimumSeverity Level.warn.ord sampleLogger demoWorld).1 = .ok l2 ∧
      ((demoWorld.withLog ⟨⟨.debug⟩, l2⟩).since
          (logCtx Context.background .info "m" [] (demoWorld.withLog ⟨⟨.debug⟩, l2⟩)).2
        = if Level.warn.ord ≤ Level.info.ord then
            [.record ⟨.info, "m", [], Context.background.span⟩] else []) ∧
      ((logCtx Context.background .info "m" [] (demoWorld.withLog ⟨⟨.debug⟩, l2⟩)).1 = .ok ())) ∧
    (demoWorld.loggerDecl = sampleLogger → demoWorld.inject = none →
      (initLogger demoWorld).1 = .ok () ∧
      (initLogger demoWorld).2.since
        (logCtx Context.background .debug "m" [] (initLogger demoWorld).2).2 = [] ∧
      (Level.info ≠ .debug →
        (initLogger demoWorld).2.since
          (logCtx Context.background .info "m" [] (initLogger demoWorld).2).2
          = [.record ⟨.info, "m", [], Context.background.span⟩])) :=
  C2_level_filter .warn .info ⟨.debug⟩ sampleLogger ⟨"minLevel", .int8, false, 1⟩ 8
    demoWorld demoWorld Context.background "m" [] (by decide) rfl rfl

/-- C3: the override of `initLogger` never silently does nothing.  When the logger
struct has no `minLevel` field of a signed integer kind, `initLogger` panics with
"Cannot set unexported field minLevel on logger" and leaves the whole state as it
was; when it has one, exported or not, `initLogger` returns and the field then
stores the ordinal of Info, every other field being unchanged. -/
theorem C3_override_never_silent (w : World) :
    ((∀ f, w.loggerDecl.find "minLevel" = some f → f.kind.intBits = none) →
      initLogger w = (.panic "Cannot set unexported field minLevel on logger", w)) ∧
    (∀ f bits, w.loggerDecl.find "minLevel" = some f → f.kind.intBits = some bits →
      (initLogger w).1 = .ok () ∧
      ∃ g, (initLogger w).2.log = some g ∧
        g.self.find "minLevel" = some { f with value := Level.info.ord } ∧
        ∀ other, other ≠ "minLevel" → g.self.find other = w.loggerDecl.find other) := by
  refine ⟨initLogger_panics w, fun f bits hf hk => ?_⟩
  rw [initLogger_run w hf hk]
  refine ⟨rfl, _, rfl, ?_, fun other ho => ?_⟩
  · simp [find_store_same, hf]
  · exact find_store_other _ _ _ _ ho

theorem C3_override_never_silent_witness :
    (initLogger (World.boot [] bareLogger none)
        = (.panic "Cannot set unexported field minLevel on logger", World.boot [] bareLogger none)) ∧
    (initLogger (World.boot [] textLogger none)
        = (.panic "Cannot set unexported field minLevel on logger", World.boot [] textLogger none)) ∧
    ((initLogger (World.boot [] openLogger none)).1 = .ok () ∧
      ∃ g, (initLogger (World.boot [] openLogger none)).2.log = some g ∧
        g.self.find "minLevel" = some ⟨"minLevel", .int32, true, Level.info.ord⟩ ∧
        ∀ other, other ≠ "minLevel" →
          g.self.find other = (World.boot [] openLogger none).loggerDecl.find other) ∧
    ((initLogger demoWorld).1 = .ok () ∧
      ∃ g, (initLogger demoWorld).2.log = some g ∧
        g.self.find "minLevel" = some ⟨"minLevel", .int8, false, Level.info.ord⟩ ∧
        ∀ other, other ≠ "minLevel" → g.self.find other = demoWorld.loggerDecl.find other) :=
  ⟨(C3_override_never_silent (World.boot [] bareLogger none)).1 (by decide),
   (C3_override_never_silent (World.boot [] textLogger none)).1 (by decide),
   (C3_override_never_silent (World.boot [] openLogger none)).2
      ⟨"minLevel", .int32, true, 7⟩ 32 (by decide) rfl,
   (C3_override_never_silent demoWorld).2 ⟨"minLevel", .int8, false, 1⟩ 8 (by decide) rfl⟩

/-- C4: without `UPTRACE_DSN` in the environment `main` exits the process with
status 1, the warning is the last thing it does, the backend is never configured and
no span is started or ended; with `UPTRACE_DSN` set `initUptrace` never exits and
`main` returns, so the process ends with status 0. -/
theorem C4_missing_dsn_exits (w : World) (f : FieldDecl) (bits : Nat)
    (hf : w.loggerDecl.find "minLevel" = some f) (hk : f.kind.intBits = some bits) :
    (w.env.lookup "UPTRACE_DSN" = none →
      (main w).1 = .exit 1 ∧ exitCode (main w).1 = 1 ∧
      (w.since (main w).2).getLast? = some (.println (.text "warn: UPTRACE_DSN not set")) ∧
      ∀ e ∈ w.since (main w).2,
        e.isSpanEdge = false ∧ (∀ a b c, e ≠ .configure a b c) ∧ ∀ ctx, e ≠ .shutdown ctx) ∧
    (∀ v, w.env.lookup "UPTRACE_DSN" = some v →
      (∀ w2 c, w2.env = w.env → (initUptrace w2).1 ≠ .exit c) ∧
      (w.inject = none → (main w).1 = .ok () ∧ exitCode (main w).1 = 0)) := by
  constructor
  · intro hv
    rw [main_exits w hf hk hv, since_withLog_extend]
    refine ⟨rfl, rfl, rfl, ?_⟩
    simp [Event.isSpanEdge]
  · intro v hv
    constructor
    · intro w2 c henv
      rw [← henv] at hv
      rcases hl : w2.log with _ | g
      · have : initUptrace w2 = (.panic nilDeref, w2) := by
          unfold initUptrace logLevel derefLog
          simp [Prog.bind_apply, Prog.seq, hl]
        simp [this]
      · simp [initUptrace_run hl hv]
    · intro h1
      rw [main_run w h1 hf hk hv]
      exact ⟨rfl, rfl⟩

theorem C4_missing_dsn_exits_witness :
    ((main noDsnWorld).1 = .exit 1 ∧ exitCode (main noDsnWorld).1 = 1 ∧
      (noDsnWorld.since (main noDsnWorld).2).getLast?
        = some (.println (.text "warn: UPTRACE_DSN not set")) ∧
      ∀ e ∈ noDsnWorld.since (main noDsnWorld).2,
        e.isSpanEdge = false ∧ (∀ a b c, e ≠ .configure a b c) ∧ ∀ ctx, e ≠ .shutdown ctx) ∧
    ((∀ w2 c, w2.env = demoWorld.env → (initUptrace w2).1 ≠ .exit c) ∧
      (demoWorld.inject = none → (main demoWorld).1 = .ok () ∧ exitCode (main demoWorld).1 = 0)) :=
  ⟨(C4_missing_dsn_exits noDsnWorld ⟨"minLevel", .int8, false, 1⟩ 8 (by decide) rfl).1 (by decide),
   (C4_missing_dsn_exits demoWorld ⟨"minLevel", .int8, false, 1⟩ 8 (by decide) rfl).2 "dsn"
      (by decide)⟩

/-- C5: each of `add`, `multiply`, `getDatabaseUser`, `getUser` and
`someFuncWithError`, run from any state (so also when a log call panics on a nil
logger or a fault is injected in the body), starts its span first, ends it last, and
ends every span started during the call exactly once; from any state the trace of
`main` ends every span it starts, the root span included, exactly once and ends no
other span. -/
theorem C5_spans_end_exactly_once (w : World) (ctx : Context) (x y : Int) (email : String) :
    SpanScoped "Addition" .internal ctx w (add ctx x y w).2 ∧
    SpanScoped "Multiplication" .server ctx w (multiply ctx x y w).2 ∧
    SpanScoped "getDatabaseUser" .server ctx w (getDatabaseUser ctx email w).2 ∧
    SpanScoped "getUser" .server ctx w (getUser ctx email w).2 ∧
    SpanScoped "someFuncWithError" .internal ctx w (someFuncWithError ctx w).2 ∧
    EndedOnce (w.since (main w).2) := by
  refine ⟨?_, ?_, ?_, ?_, ?_, ?_⟩
  · unfold add
    refine spanScoped_of ctx _ _ _ (fun _ => pure (wrapInt64 (x + y))) ?_
      (fun _ => tidy_pure _) (fun _ => yields_pure _ trivial) w
    rintro ⟨_, _⟩; rfl
  · unfold multiply
    refine spanScoped_of ctx _ _ _
      (fun cs => do
        logCtx cs.1 .info "multiply " [.int64 "x" x, .int64 "y" y]
        pure (wrapInt64 (x * y)))
      ?_
      (fun _ => tidy_bind (logCtx_tidy _ _ _ _) fun _ => tidy_pure _)
      (fun _ => yields_bind (logCtx_yields _ _ _ _) fun _ _ => yields_pure _ trivial) w
    rintro ⟨_, _⟩; rfl
  · unfold getDatabaseUser
    refine spanScoped_of ctx _ _ _
      (fun cs => do
        let sugar ← logSugar
        sugarCtxInfow sugar cs.1 "getDatabaseUser INFO " [.string "email" email]
        logInfoContext cs.1 "getDatabaseUser INFO2 " [.string "email" email]
        logCtx cs.1 .error "getDatabaseUser ERR " [.string "email" email]
        pure 42)
      ?_
      (fun _ => tidy_bind derefLog_tidy fun _ =>
        tidy_bind (sugarCtxInfow_tidy _ _ _ _) fun _ =>
        tidy_bind (logInfoContext_tidy _ _ _) fun _ =>
        tidy_bind (logCtx_tidy _ _ _ _) fun _ => tidy_pure _)
      (fun _ => yields_bind derefLog_yields fun _ _ =>
        yields_bind (sugarCtxInfow_yields _ _ _ _) fun _ _ =>
        yields_bind (logInfoContext_yields _ _ _) fun _ _ =>
        yields_bind (logCtx_yields _ _ _ _) fun _ _ => yields_pure _ trivial) w
    rintro ⟨_, _⟩; rfl
  · unfold getUser
    refine spanScoped_of ctx _ _ _ (fun cs => getDatabaseUser cs.1 email) ?_
      (fun _ => getDatabaseUser_tidy _ _)
      (fun _ => yields_mono (getDatabaseUser_yields _ _) fun _ _ => trivial) w
    rintro ⟨_, _⟩; rfl
  · unfold someFuncWithError
    refine spanScoped_of ctx _ _ _
      (fun cs => do
        spanRecordError cs.2 "dummy error" true
        spanSetStatus cs.2 .error "dummy error")
      ?_
      (fun _ => tidy_bind (spanRecordError_tidy _ _ _) fun _ => spanSetStatus_tidy _ _ _)
      (fun _ => yields_bind (spanRecordError_yields _ _ _) fun _ _ =>
        spanSetStatus_yields _ _ _) w
    rintro ⟨_, _⟩; rfl
  · obtain ⟨evs, h, b⟩ := main_tidy w
    rw [since_of_append h]
    exact balanced_endedOnce b

/-- The panic path of C5 is not empty: with a fault injected at its log call,
`multiply` panics after it started its span, and the span is ended all the same. -/
theorem multiply_panic_path :
    multiply Context.background 2 2 faultyWorld
      = (.panic "injected panic",
          (demoWorld.withLog demoLogger).extend 1
            [.start ⟨0, 0⟩ "Multiplication" .server none, .finish ⟨0, 0⟩]) := by
  decide

/-- C6, as stated, fails: the claim counts three Multiplication spans in the demo
run, and the run starts two. -/
theorem C6_three_multiplications_refuted :
    ¬ (spansNamed "Multiplication" (demoWorld.since (main demoWorld).2)).length = 3 := by
  decide

/-- C6 (amended): a span started with the context returned by a prior span start has
that prior span as parent and shares its trace; in the demo run the parent of the
getDatabaseUser span is the getUser span, the parent of the getUser span, of both
Multiplication spans, of the Addition span and of the someFuncWithError span is the
root "main" span, which has no parent, and every span of the run carries the trace
identifier of the root span. -/
theorem C6_parent_linkage (w : World) (ctx : Context) (n1 n2 : String) (k1 k2 : SpanKind)
    (f : FieldDecl) (bits : Nat) (v : String)
    (h1 : w.inject = none) (hf : w.loggerDecl.find "minLevel" = some f)
    (hk : f.kind.intBits = some bits) (hv : w.env.lookup "UPTRACE_DSN" = some v) :
    (∃ c1 s1 w1 c2 s2 w2, tracerStart ctx n1 k1 w = (.ok (c1, s1), w1) ∧
      tracerStart c1 n2 k2 w1 = (.ok (c2, s2), w2) ∧
      w1.since w2 = [.start s2 n2 k2 (some s1)] ∧ s2.traceId = s1.traceId ∧ s2.id ≠ s1.id) ∧
    spansNamed "main" (w.since (main w).2) = [(⟨w.nextSpan, w.nextSpan⟩, none)] ∧
    spansNamed "getUser" (w.since (main w).2)
      = [(⟨w.nextSpan + 1, w.nextSpan⟩, some ⟨w.nextSpan, w.nextSpan⟩)] ∧
    spansNamed "getDatabaseUser" (w.since (main w).2)
      = [(⟨w.nextSpan + 2, w.nextSpan⟩, some ⟨w.nextSpan + 1, w.nextSpan⟩)] ∧
    spansNamed "Multiplication" (w.since (main w).2)
      = [(⟨w.nextSpan + 3, w.nextSpan⟩, some ⟨w.nextSpan, w.nextSpan⟩),
         (⟨w.nextSpan + 4, w.nextSpan⟩, some ⟨w.nextSpan, w.nextSpan⟩)] ∧
    spansNamed "Addition" (w.since (main w).2)
      = [(⟨w.nextSpan + 5, w.nextSpan⟩, some ⟨w.nextSpan, w.nextSpan⟩)] ∧
    spansNamed "someFuncWithError" (w.since (main w).2)
      = [(⟨w.nextSpan + 6, w.nextSpan⟩, some ⟨w.nextSpan, w.nextSpan⟩)] ∧
    (traceIds (w.since (main w).2)).length = 7 ∧
    ∀ t ∈ traceIds (w.since (main w).2), t = w.nextSpan := by
  refine ⟨?_, ?_⟩
  · refine ⟨_, _, _, _, _, _, tracerStart_apply _ _ _ _, tracerStart_apply _ _ _ _, ?_, ?_, ?_⟩
    · simp [World.since]
    · rfl
    · rw [newSpanRef_id, newSpanRef_id]; simp
  · rw [main_since w h1 hf hk hv]
    simp [spansNamed, traceIds]

theorem C6_parent_linkage_witness :
    (∃ c1 s1 w1 c2 s2 w2,
      tracerStart Context.background "getUser" .server demoWorld = (.ok (c1, s1), w1) ∧
      tracerStart c1 "getDatabaseUser" .server w1 = (.ok (c2, s2), w2) ∧
      w1.since w2 = [.start s2 "getDatabaseUser" .server (some s1)] ∧
      s2.traceId = s1.traceId ∧ s2.id ≠ s1.id) ∧
    spansNamed "main" (demoWorld.since (main demoWorld).2)
      = [(⟨demoWorld.nextSpan, demoWorld.nextSpan⟩, none)] ∧
    spansNamed "getUser" (demoWorld.since (main demoWorld).2)
      = [(⟨demoWorld.nextSpan + 1, demoWorld.nextSpan⟩,
          some ⟨demoWorld.nextSpan, demoWorld.nextSpan⟩)] ∧
    spansNamed "getDatabaseUser" (demoWorld.since (main demoWorld).2)
      = [(⟨demoWorld.nextSpan + 2, demoWorld.nextSpan⟩,
          some ⟨demoWorld.nextSpan + 1, demoWorld.nextSpan⟩)] ∧
    spansNamed "Multiplication" (demoWorld.since (main demoWorld).2)
      = [(⟨demoWorld.nextSpan + 3, demoWorld.nextSpan⟩,
          some ⟨demoWorld.nextSpan, demoWorld.nextSpan⟩),
         (⟨demoWorld.nextSpan + 4, demoWorld.nextSpan⟩,
          some ⟨demoWorld.nextSpan, demoWorld.nextSpan⟩)] ∧
    spansNamed "Addition" (demoWorld.since (main demoWorld).2)
      = [(⟨demoWorld.nextSpan + 5, demoWorld.nextSpan⟩,
          some ⟨demoWorld.nextSpan, demoWorld.nextSpan⟩)] ∧
    spansNamed "someFuncWithError" (demoWorld.since (main demoWorld).2)
      = [(⟨demoWorld.nextSpan + 6, demoWorld.nextSpan⟩,
          some ⟨demoWorld.nextSpan, demoWorld.nextSpan⟩)] ∧
    (traceIds (demoWorld.since (main demoWorld).2)).length = 7 ∧
    ∀ t ∈ traceIds (demoWorld.since (main demoWorld).2), t = demoWorld.nextSpan :=
  C6_parent_linkage demoWorld Context.background "getUser" "getDatabaseUser" .server .server
    ⟨"minLevel", .int8, false, 1⟩ 8 "dsn" rfl (by decide) rfl (by decide)

/-- C7: with no fault injected `someFuncWithError` starts its span, records on it
exactly one error ("dummy error", stack capture enabled), sets its status to Error
with message "dummy error", only then ends it, and returns normally; in the run of
`main` these four events are followed at once by the print of the trace URL and
`main` returns. -/
theorem C7_dummy_error_recorded (ctx : Context) (w w0 : World) (f : FieldDecl) (bits : Nat)
    (v : String) (h1 : w.inject = none) (h0 : w0.inject = none)
    (hf : w0.loggerDecl.find "minLevel" = some f) (hk : f.kind.intBits = some bits)
    (hv : w0.env.lookup "UPTRACE_DSN" = some v) :
    (someFuncWithError ctx w).1 = .ok () ∧
    w.since (someFuncWithError ctx w).2
      = [.start (newSpanRef ctx w.nextSpan) "someFuncWithError" .internal ctx.span,
         .recordError (newSpanRef ctx w.nextSpan) "dummy error" true,
         .setStatus (newSpanRef ctx w.nextSpan) .error "dummy error",
         .finish (newSpanRef ctx w.nextSpan)] ∧
    (main w0).1 = .ok () ∧
    [.start ⟨w0.nextSpan + 6, w0.nextSpan⟩ "someFuncWithError" .internal
        (some ⟨w0.nextSpan, w0.nextSpan⟩),
      .recordError ⟨w0.nextSpan + 6, w0.nextSpan⟩ "dummy error" true,
      .setStatus ⟨w0.nextSpan + 6, w0.nextSpan⟩ .error "dummy error",
      .finish ⟨w0.nextSpan + 6, w0.nextSpan⟩,
      .println (.traceURL ⟨w0.nextSpan, w0.nextSpan⟩)] <:+: w0.since (main w0).2 := by
  refine ⟨?_, ?_, ?_, ?_⟩
  · rw [someFuncWithError_run h1]
  · rw [someFuncWithError_run h1, since_extend]
  · rw [main_run w0 h0 hf hk hv]
  · refine ⟨List.take 28 (w0.since (main w0).2),
      [.sync, .finish ⟨w0.nextSpan, w0.nextSpan⟩, .shutdown Context.background], ?_⟩
    rw [main_since w0 h0 hf hk hv]
    rfl

theorem C7_dummy_error_recorded_witness :
    (someFuncWithError Context.background demoWorld).1 = .ok () ∧
    demoWorld.since (someFuncWithError Context.background demoWorld).2
      = [.start (newSpanRef Context.background demoWorld.nextSpan) "someFuncWithError" .internal
           Context.background.span,
         .recordError (newSpanRef Context.background demoWorld.nextSpan) "dummy error" true,
         .setStatus (newSpanRef Context.background demoWorld.nextSpan) .error "dummy error",
         .finish (newSpanRef Context.background demoWorld.nextSpan)] ∧
    (main demoWorld).1 = .ok () ∧
    [.start ⟨demoWorld.nextSpan + 6, demoWorld.nextSpan⟩ "someFuncWithError" .internal
        (some ⟨demoWorld.nextSpan, demoWorld.nextSpan⟩),
      .recordError ⟨demoWorld.nextSpan + 6, demoWorld.nextSpan⟩ "dummy error" true,
      .setStatus ⟨demoWorld.nextSpan + 6, demoWorld.nextSpan⟩ .error "dummy error",
      .finish ⟨demoWorld.nextSpan + 6, demoWorld.nextSpan⟩,
      .println (.traceURL ⟨demoWorld.nextSpan, demoWorld.nextSpan⟩)]
        <:+: demoWorld.since (main demoWorld).2 :=
  C7_dummy_error_recorded Context.background demoWorld demoWorld ⟨"minLevel", .int8, false, 1⟩ 8
    "dsn" rfl rfl (by decide) rfl (by decide)

/-- C9: each record carries the span that is active in the function that logs it.
With the logger set, passing Info and Error, and no fault injected: the record of
`multiply` carries the Multiplication span this call just started, which is not the
span of the caller; the three records of `getDatabaseUser` carry the getDatabaseUser
span; and in the run of `main` the root "main" span is carried by exactly the seven
records that `main` logs itself. -/
theorem C9_records_carry_active_span (w w0 : World) (g : Logger) (ctx : Context) (x y : Int)
    (email : String) (f : FieldDecl) (bits : Nat) (v : String)
    (h1 : w.inject = none) (h2 : w.log = some g)
    (hi : g.enabled .info = true) (he : g.enabled .error = true)
    (h0 : w0.inject = none) (hf : w0.loggerDecl.find "minLevel" = some f)
    (hk : f.kind.intBits = some bits) (hv : w0.env.lookup "UPTRACE_DSN" = some v) :
    w.since (multiply ctx x y w).2
      = [.start (newSpanRef ctx w.nextSpan) "Multiplication" .server ctx.span,
         .record ⟨.info, "multiply ", [.int64 "x" x, .int64 "y" y],
           some (newSpanRef ctx w.nextSpan)⟩,
         .finish (newSpanRef ctx w.nextSpan)] ∧
    (∀ p, ctx.span = some p → p.id < w.nextSpan → newSpanRef ctx w.nextSpan ≠ p) ∧
    w.since (getDatabaseUser ctx email w).2
      = [.start (newSpanRef ctx w.nextSpan) "getDatabaseUser" .server ctx.span,
         .record ⟨.info, "getDatabaseUser INFO ", [.string "email" email],
           some (newSpanRef ctx w.nextSpan)⟩,
         .record ⟨.info, "getDatabaseUser INFO2 ", [.string "email" email],
           some (newSpanRef ctx w.nextSpan)⟩,
         .record ⟨.error, "getDatabaseUser ERR ", [.string "email" email],
           some (newSpanRef ctx w.nextSpan)⟩,
         .finish (newSpanRef ctx w.nextSpan)] ∧
    spansNamed "main" (w0.since (main w0).2) = [(⟨w0.nextSpan, w0.nextSpan⟩, none)] ∧
    messagesOn ⟨w0.nextSpan, w0.nextSpan⟩ (w0.since (main w0).2)
      = ["hello from zap", "This is an INFO", "This is a WARN", "This is an ERROR",
         "starting the application", "getting the user ", "the answer is "] := by
  refine ⟨?_, ?_, ?_, ?_, ?_⟩
  · rw [multiply_run h1 h2, since_extend]
    simp [Logger.output, hi]
  · intro p hp hlt heq
    have := newSpanRef_id ctx w.nextSpan
    rw [heq] at this
    omega
  · rw [getDatabaseUser_run h1 h2, since_extend]
    simp [Logger.output, hi, he]
  · rw [main_since w0 h0 hf hk hv]
    simp [spansNamed]
  · rw [main_since w0 h0 hf hk hv]
    simp [messagesOn]

theorem C9_records_carry_active_span_witness :
    demoWorld.since (multiply ⟨some ⟨5, 1⟩⟩ 2 2 (demoWorld.withLog demoLogger)).2
      = [.start (newSpanRef ⟨some ⟨5, 1⟩⟩ (demoWorld.withLog demoLogger).nextSpan)
           "Multiplication" .server (some ⟨5, 1⟩),
         .record ⟨.info, "multiply ", [.int64 "x" 2, .int64 "y" 2],
           some (newSpanRef ⟨some ⟨5, 1⟩⟩ (demoWorld.withLog demoLogger).nextSpan)⟩,
         .finish (newSpanRef ⟨some ⟨5, 1⟩⟩ (demoWorld.withLog demoLogger).nextSpan)] ∧
    messagesOn ⟨demoWorld.nextSpan, demoWorld.nextSpan⟩ (demoWorld.since (main demoWorld).2)
      = ["hello from zap", "This is an INFO", "This is a WARN", "This is an ERROR",
         "starting the application", "getting the user ", "the answer is "] :=
  ⟨(C9_records_carry_active_span (demoWorld.withLog demoLogger) demoWorld demoLogger
      ⟨some ⟨5, 1⟩⟩ 2 2 "a@b.c" ⟨"minLevel", .int8, false, 1⟩ 8 "dsn" rfl rfl (by decide)
      (by decide) rfl (by decide) rfl (by decide)).1,
   (C9_records_carry_active_span (demoWorld.withLog demoLogger) demoWorld demoLogger
      ⟨some ⟨5, 1⟩⟩ 2 2 "a@b.c" ⟨"minLevel", .int8, false, 1⟩ 8 "dsn" rfl rfl (by decide)
      (by decide) rfl (by decide) rfl (by decide)).2.2.2.2⟩

/-- C10: whenever `main` returns normally, the last three events of its trace are
the logger sync, the end of the root "main" span and the shutdown of the backend, in
this order; the shutdown is called with the background context; and every span
started before it (the root span and all the others) has been ended exactly once by
the time the shutdown is called. -/
theorem C10_teardown_order (w : World) (h : (main w).1 = .ok ()) :
    ∃ pre root, w.since (main w).2
        = pre ++ [.sync, .finish root, .shutdown Context.background] ∧
      Context.background.span = none ∧
      Event.start root "main" .internal none ∈ pre ∧
      ∀ s name kind parent, Event.start s name kind parent ∈ pre →
        finishes s (pre ++ [.sync, .finish root]) = 1 := by
  rw [main_eq] at h ⊢
  obtain ⟨_, w1, hr1, he1⟩ := bind_ok h
  rw [he1] at h ⊢
  obtain ⟨_, w2, hr2, he2⟩ := bind_ok h
  rw [he2] at h ⊢
  obtain ⟨_, w3, hr3, he3⟩ := bind_ok h
  rw [he3] at h ⊢
  obtain ⟨w6, hr6, he6⟩ := defer_emit_ok (e := .shutdown Context.background) h
  have he6b : deferCall (uptraceShutdown Context.background)
      (do
        let cs ← tracerStart Context.background "main" .internal
        deferCall (spanEnd cs.2) (deferCall logSync (mainBody cs.1 cs.2))) w3
      = (.ok (), w6.extend 0 [.shutdown Context.background]) := he6
  rw [he6b]
  have hinner : (tracerStart Context.background "main" .internal >>= fun cs =>
        deferCall (spanEnd cs.2) (deferCall logSync (mainBody cs.1 cs.2))) w3
      = deferCall (emit (.finish ⟨w3.nextSpan, w3.nextSpan⟩))
          (deferCall logSync (mainBody ⟨some ⟨w3.nextSpan, w3.nextSpan⟩⟩
            ⟨w3.nextSpan, w3.nextSpan⟩))
          (w3.extend 1 [.start ⟨w3.nextSpan, w3.nextSpan⟩ "main" .internal none]) := rfl
  rw [hinner] at hr6
  have h5 : (deferCall (emit (.finish ⟨w3.nextSpan, w3.nextSpan⟩))
          (deferCall logSync (mainBody ⟨some ⟨w3.nextSpan, w3.nextSpan⟩⟩
            ⟨w3.nextSpan, w3.nextSpan⟩))
          (w3.extend 1 [.start ⟨w3.nextSpan, w3.nextSpan⟩ "main" .internal none])).1
      = .ok () := by rw [hr6]
  obtain ⟨w5, hr5, he5⟩ := defer_emit_ok h5
  rw [he5] at hr6
  have h4 : (deferCall logSync (mainBody ⟨some ⟨w3.nextSpan, w3.nextSpan⟩⟩
            ⟨w3.nextSpan, w3.nextSpan⟩)
          (w3.extend 1 [.start ⟨w3.nextSpan, w3.nextSpan⟩ "main" .internal none])).1
      = .ok () := by rw [hr5]
  obtain ⟨w4, hr4, he4⟩ := defer_sync_ok h4
  rw [he4] at hr5
  obtain ⟨a1, ha1, hb1⟩ := initLogger_tidy w
  rw [hr1] at ha1 hb1
  obtain ⟨a2, ha2, hb2⟩ := tidy_event .setErrorHandler rfl w1
  rw [show emit Event.setErrorHandler w1 = otelSetErrorHandler w1 from rfl, hr2] at ha2 hb2
  obtain ⟨a3, ha3, hb3⟩ := initUptrace_tidy w2
  rw [hr3] at ha3 hb3
  obtain ⟨a4, ha4, hb4⟩ := mainBody_tidy ⟨some ⟨w3.nextSpan, w3.nextSpan⟩⟩
    ⟨w3.nextSpan, w3.nextSpan⟩
    (w3.extend 1 [.start ⟨w3.nextSpan, w3.nextSpan⟩ "main" .internal none])
  rw [hr4] at ha4 hb4
  simp only [extend_events, extend_nextSpan] at ha1 ha2 ha3 ha4 hb1 hb2 hb3 hb4
  have hw5 : w5 = w4.extend 0 [.sync] := by cases hr5; rfl
  have hw6 : w6 = w5.extend 0 [.finish ⟨w3.nextSpan, w3.nextSpan⟩] := by cases hr6; rfl
  have hpre : Balanced w.nextSpan w3.nextSpan (a1 ++ (a2 ++ a3)) :=
    balanced_append hb1 (balanced_append hb2 hb3)
  have hall : Balanced w.nextSpan w4.nextSpan
      ((a1 ++ (a2 ++ a3)) ++ (.start ⟨w3.nextSpan, w3.nextSpan⟩ "main" .internal none
        :: (a4 ++ [.finish ⟨w3.nextSpan, w3.nextSpan⟩]))) :=
    balanced_append hpre (balanced_span _ _ _ _ rfl hb4)
  refine ⟨(a1 ++ (a2 ++ a3)) ++ (.start ⟨w3.nextSpan, w3.nextSpan⟩ "main" .internal none :: a4),
    ⟨w3.nextSpan, w3.nextSpan⟩, ?_, rfl, by simp, ?_⟩
  · apply since_of_append
    simp [hw6, hw5, ha4, ha3, ha2, ha1]
  · intro s name kind parent hmem
    have hmem2 : Event.start s name kind parent ∈
        (a1 ++ (a2 ++ a3)) ++ (.start ⟨w3.nextSpan, w3.nextSpan⟩ "main" .internal none
          :: (a4 ++ [.finish ⟨w3.nextSpan, w3.nextSpan⟩])) := by
      simp only [List.mem_append, List.mem_cons] at hmem ⊢
      tauto
    have := (balanced_endedOnce hall).1 s name kind parent hmem2
    simp only [finishes, List.count_append, List.count_cons, List.count_nil] at this ⊢
    simp at this ⊢
    split_ifs at this ⊢ <;> omega

theorem C10_teardown_order_witness :
    ∃ pre root, demoWorld.since (main demoWorld).2
        = pre ++ [.sync, .finish root, .shutdown Context.background] ∧
      Context.background.span = none ∧
      Event.start root "main" .internal none ∈ pre ∧
      ∀ s name kind parent, Event.start s name kind parent ∈ pre →
        finishes s (pre ++ [.sync, .finish root]) = 1 :=
  C10_teardown_order demoWorld (by decide)

end OtlpExample
